import Mathlib

/-!
# ctrl::ffd::Task (src/ctrl/ffd/ffd_Task.cpp)

A shallow embedding of the free-form-deformation compute task and of its
shader pool `Task::Resource`.

Conventions of the embedding

* C++ `int` values are `Int`. The vertex count of a connection block in `requestBlur`,
  `vertexRange.diff() + 1`, is formed in 32-bit `int` arithmetic (`wrapInt32`), since a
  block list can reach the limits of `int` there. The other sums and products are left
  unbounded: the byte offsets and sizes are formed in `size_t` of 64 bits from `int`
  values times 12, and the slot of a program key is only used for keys that the
  hypotheses keep in range. The constants `kType`, `kHardness`, `kVariation` and
  `kMaxCount` come from headers and are carried in `Consts`.
* Float values are rationals; the code only stores them and compares them with zero.
* A failed `XC_ASSERT` / `XC_PTR_ASSERT`, a raised `XC_FATAL_ERROR` and an
  array access outside its storage end the computation with a `Failure`.
* The shader preprocessor, the GL compiler and linker, the file system and
  the GL error flag are collaborators: their answers are the fields of `Env`
  and `Driver`.
* GL calls are recorded in the order in which the code issues them.
-/

namespace ctrl.ffd

/-! ## Constants and failures -/

/-- Brush type code of the deformer, `kTypeDeformer` of the anonymous namespace. -/
def kTypeDeformer : Int := 0

/-- Brush type code of the eraser, `kTypeEraser` of the anonymous namespace. -/
def kTypeEraser : Int := 1

/-- Modelled from the spec: the constants `kType`, `kHardness`, `kVariation` of
`Task::Resource` and `LayerMesh::ArrayedConnection::kMaxCount` are declared in
headers; they are parameters here. -/
structure Consts where
  kType : Nat
  kHardness : Nat
  kVariation : Nat
  kMaxCount : Nat
  deriving DecidableEq

/-- Modelled from the spec: the macros `XC_ASSERT`, `XC_PTR_ASSERT` and `XC_FATAL_ERROR`
are defined in `XC.h`, outside the sources at hand. The spec reads a failed assertion as a
programming error and a fatal error as aborting initialization, so each ends the call.
The third way to end is an array access outside the storage of the array. -/
inductive Failure where
  /-- An `XC_ASSERT` or `XC_PTR_ASSERT` whose condition is false. -/
  | assertion (site : String)
  /-- An `XC_FATAL_ERROR(type, detail, ...)`. -/
  | fatalError (type : String) (detail : String)
  /-- An array element outside the storage of the array is accessed. -/
  | outOfRange (site : String)
  deriving DecidableEq

/-! ## Task::Resource -/

/-- Shader text with its variation values, the part of `gl::ExtendShader`
that `buildShader` touches. -/
structure ExtendShader where
  text : String
  variation : List (String × String)
  deriving DecidableEq

/-- The call `source.openFromText(aCode)`. -/
def ExtendShader.openFromText (aCode : String) : ExtendShader :=
  { text := aCode, variation := [] }

/-- The call `source.setVariationValue(name, value)`. -/
def ExtendShader.setVariationValue (s : ExtendShader) (name value : String) : ExtendShader :=
  { s with variation := s.variation ++ [(name, value)] }

/-- The part of `gl::EasyShaderProgram` that the builders set. -/
structure EasyShaderProgram where
  vertexSource : Option ExtendShader
  feedbackVaryings : List String
  linked : Bool
  deriving DecidableEq

instance : Inhabited EasyShaderProgram :=
  ⟨{ vertexSource := none, feedbackVaryings := [], linked := false }⟩

/-- Names one program object of the pool: `mProgram[index]` or `mBlurProgram`. -/
inductive ProgramRef where
  | variation (index : Int)
  | blur
  deriving DecidableEq

/-- The externally visible steps of `Resource::setup`, in program order. -/
inductive Step where
  | loadFile (path : String)
  | resolveVariation (source : ExtendShader)
  | setVertexSource (target : ProgramRef) (source : ExtendShader)
  | transformFeedbackVaryings (target : ProgramRef) (varyings : List String)
  | link (target : ProgramRef) (source : ExtendShader) (varyings : List String)
  | getError
  deriving DecidableEq

/-- Answers of the collaborators of `Resource::setup`: `QFile`, `gl::ExtendShader`,
`gl::EasyShaderProgram` and the GL error flag. They are parameters of the embedding. -/
structure Env where
  /-- The text of a file, `none` when `QFile::open` fails. -/
  readFile : String → Option String
  /-- Result of `ExtendShader::resolveVariation`. -/
  resolveVariation : ExtendShader → Bool
  /-- Result of `EasyShaderProgram::setVertexSource`. -/
  compileVertex : ExtendShader → Bool
  /-- Result of `EasyShaderProgram::link` for a vertex source and its declared varyings. -/
  link : ExtendShader → List String → Bool
  /-- Whether `glGetError()` differs from `GL_NO_ERROR` after the given steps. -/
  glError : List Step → Bool

/-- The pool: the array `mProgram[kVariation]` and `mBlurProgram`. -/
structure Resource where
  mProgram : List EasyShaderProgram
  mBlurProgram : EasyShaderProgram
  deriving DecidableEq

/-- Outcome of a traced call: the steps performed and the result. -/
structure Traced (α : Type) where
  trace : List Step
  result : Except Failure α

/-- The constructor `Task::Resource::Resource()`. -/
def Resource.new (K : Consts) : Except Failure Resource :=
  if K.kType * K.kHardness = K.kVariation then
    .ok { mProgram := List.replicate K.kVariation default, mBlurProgram := default }
  else
    .error (.assertion "kType * kHardness == kVariation")

/-- The index expression `aType * kHardness + aHard` of `Resource::program`. -/
def programSlot (K : Consts) (aType aHard : Int) : Int :=
  aType * (K.kHardness : Int) + aHard

/-- Reading `mProgram[i]`. -/
def Resource.element (r : Resource) (i : Int) : Except Failure EasyShaderProgram :=
  if 0 ≤ i ∧ i < (r.mProgram.length : Int) then
    .ok (r.mProgram.getD i.toNat default)
  else
    .error (.outOfRange "mProgram")

/-- The accessor `Task::Resource::program(int aType, int aHard)`. -/
def Resource.program (K : Consts) (r : Resource) (aType aHard : Int) :
    Except Failure EasyShaderProgram :=
  if aType < (K.kType : Int) ∧ aHard < (K.kHardness : Int) then
    r.element (programSlot K aType aHard)
  else
    .error (.assertion "aType < kType && aHard < kHardness")

/-- The accessor `Task::Resource::blurProgram()`. -/
def Resource.blurProgram (r : Resource) : EasyShaderProgram :=
  r.mBlurProgram

/-- The function `Task::Resource::loadFile`. -/
def loadFile (env : Env) (aPath : String) (tr : List Step) : Traced String :=
  match env.readFile aPath with
  | none =>
    { trace := tr ++ [.loadFile aPath], result := .error (.fatalError "FileIO Error" aPath) }
  | some code =>
    { trace := tr ++ [.loadFile aPath], result := .ok code }

/-- The feedback varyings that `buildShader` declares for a brush type. -/
def shaderVaryings (aType : Int) : List String :=
  if aType = kTypeDeformer then ["outPosition", "outWeight"] else ["outPosition"]

/-- The function `Task::Resource::buildShader`. -/
def buildShader (env : Env) (target : ProgramRef) (aProgram : EasyShaderProgram)
    (aCode : String) (aType aHard : Int) (tr : List Step) : Traced EasyShaderProgram :=
  let source := (ExtendShader.openFromText aCode).setVariationValue "HARDNESS" (toString aHard)
  let tr1 := tr ++ [.resolveVariation source]
  if env.resolveVariation source = false then
    { trace := tr1,
      result := .error (.fatalError "OpenGL Error" "Failed to resolve shader variation.") }
  else
    let tr2 := tr1 ++ [.setVertexSource target source]
    if env.compileVertex source = false then
      { trace := tr2,
        result := .error (.fatalError "OpenGL Error" "Failed to compile vertex shader.") }
    else
      let p1 := { aProgram with vertexSource := some source }
      let p2 := { p1 with feedbackVaryings := shaderVaryings aType }
      let tr3 := tr2 ++ [.transformFeedbackVaryings target (shaderVaryings aType)]
      let tr4 := tr3 ++ [.link target source (shaderVaryings aType)]
      if env.link source (shaderVaryings aType) = false then
        { trace := tr4,
          result := .error (.fatalError "OpenGL Error" "Failed to link shader.") }
      else
        let p3 := { p2 with linked := true }
        let tr5 := tr4 ++ [.getError]
        if env.glError tr5 then
          { trace := tr5, result := .error (.assertion "glGetError() == GL_NO_ERROR") }
        else
          { trace := tr5, result := .ok p3 }

/-- The function `Task::Resource::buildBlurShader`. -/
def buildBlurShader (env : Env) (aProgram : EasyShaderProgram)
    (aCode : String) (tr : List Step) : Traced EasyShaderProgram :=
  let source := ExtendShader.openFromText aCode
  let tr1 := tr ++ [.resolveVariation source]
  if env.resolveVariation source = false then
    { trace := tr1,
      result := .error (.fatalError "OpenGL Error" "Failed to resolve shader variation.") }
  else
    let tr2 := tr1 ++ [.setVertexSource .blur source]
    if env.compileVertex source = false then
      { trace := tr2,
        result := .error (.fatalError "OpenGL Error" "Failed to compile vertex shader.") }
    else
      let p1 := { aProgram with vertexSource := some source }
      let p2 := { p1 with feedbackVaryings := ["outPosition"] }
      let tr3 := tr2 ++ [.transformFeedbackVaryings .blur ["outPosition"]]
      let tr4 := tr3 ++ [.link .blur source ["outPosition"]]
      if env.link source ["outPosition"] = false then
        { trace := tr4,
          result := .error (.fatalError "OpenGL Error" "Failed to link shader.") }
      else
        let p3 := { p2 with linked := true }
        let tr5 := tr4 ++ [.getError]
        if env.glError tr5 then
          { trace := tr5, result := .error (.assertion "glGetError() == GL_NO_ERROR") }
        else
          { trace := tr5, result := .ok p3 }

/-- One of the loops `for (int hard = 0; hard < kHardness; ++hard)` of `setup`,
run over the remaining values of `hard`: each round builds
`mProgram[aType * kHardness + hard]` in place. -/
def buildLoop (env : Env) (K : Consts) (aCode : String) (aType : Int) :
    List Nat → Resource → List Step → Traced Resource
  | [], r, tr => { trace := tr, result := .ok r }
  | hard :: rest, r, tr =>
    let slot := programSlot K aType (hard : Int)
    match r.element slot with
    | .error e => { trace := tr, result := .error e }
    | .ok old =>
      match buildShader env (.variation slot) old aCode aType (hard : Int) tr with
      | { trace := tr1, result := .error e } => { trace := tr1, result := .error e }
      | { trace := tr1, result := .ok p } =>
        buildLoop env K aCode aType rest { r with mProgram := r.mProgram.set slot.toNat p } tr1

/-- The function `Task::Resource::setup`. -/
def Resource.setup (env : Env) (K : Consts) (r : Resource)
    (aBrushPath aEraserPath aBlurPath : String) (tr : List Step) : Traced Resource :=
  match loadFile env aBrushPath tr with
  | { trace := tr1, result := .error e } => { trace := tr1, result := .error e }
  | { trace := tr1, result := .ok brushCode } =>
    match buildLoop env K brushCode kTypeDeformer (List.range K.kHardness) r tr1 with
    | { trace := tr2, result := .error e } => { trace := tr2, result := .error e }
    | { trace := tr2, result := .ok r1 } =>
      match loadFile env aEraserPath tr2 with
      | { trace := tr3, result := .error e } => { trace := tr3, result := .error e }
      | { trace := tr3, result := .ok eraserCode } =>
        match buildLoop env K eraserCode kTypeEraser (List.range K.kHardness) r1 tr3 with
        | { trace := tr4, result := .error e } => { trace := tr4, result := .error e }
        | { trace := tr4, result := .ok r2 } =>
          match loadFile env aBlurPath tr4 with
          | { trace := tr5, result := .error e } => { trace := tr5, result := .error e }
          | { trace := tr5, result := .ok blurCode } =>
            match buildBlurShader env r2.mBlurProgram blurCode tr5 with
            | { trace := tr6, result := .error e } => { trace := tr6, result := .error e }
            | { trace := tr6, result := .ok p } =>
              { trace := tr6, result := .ok { r2 with mBlurProgram := p } }

/-! ## Task: data -/

/-- A host pointer: `none` is the null pointer, `some a` names the storage. -/
abbrev Ptr := Option Nat

/-- Size in bytes of a `GLfloat`. -/
def sizeofGLfloat : Int := 4

/-- Size in bytes of a `gl::Vector3`, three `GLfloat`. -/
def sizeofVector3 : Int := 12

/-- Modelled from the spec: `core::FFDParam` is declared in a header; its fields
read by this file are kept, `int` fields as `Int`, float fields as rationals. -/
structure FFDParam where
  type : Int
  hardness : Int
  radius : ℚ
  pressure : ℚ
  blur : ℚ
  eraseRadius : ℚ
  erasePressure : ℚ
  deriving DecidableEq

/-- Modelled from the spec: the view `util::ArrayBlock<const gl::Vector3>` is declared in a
header; it is a pointer and a count, and its boolean conversion is read as the pointer
being set. In every state that `writeSrc` leaves the count is positive as well. -/
structure ArrayBlock where
  array : Ptr
  count : Int
  deriving DecidableEq

/-- Modelled from the spec: `util::Range` is declared in a header; it is the integer range
`[min, max]` of the vertices of a connection block. -/
structure Range where
  min : Int
  max : Int
  deriving DecidableEq

/-- The value of a C++ `int` expression whose exact result is `x`: 32 bits, twos
complement. -/
def wrapInt32 (x : Int) : Int := (x + 2147483648) % 4294967296 - 2147483648

/-- Modelled from the spec: the call `vertexRange.diff()`, read as `max - min` formed in
`int`, so that `diff() + 1` counts the vertices of the range. -/
def Range.diff (r : Range) : Int := wrapInt32 (r.max - r.min)

/-- Modelled from the spec: one block of `LayerMesh::ArrayedConnectionList::blocks`, with
the fields that this file reads. -/
structure ArrayedConnection where
  vertexRange : Range
  positions : Ptr
  positionCount : Int
  deriving DecidableEq

/-- Modelled from the spec: the list `LayerMesh::ArrayedConnectionList`, with the fields
that this file reads. -/
structure ArrayedConnectionList where
  blocks : List ArrayedConnection
  indexRanges : Ptr
  deriving DecidableEq

/-- Modelled from the spec: `core::LayerMesh` is declared in a header. Kept is what
`writeSrc` asks of `aOriginMesh`: `vertexCount()`, `positions()` and the connection list
that `resetArrayedConnection(list, aSrcMesh)` stores. -/
structure LayerMesh where
  vertexCount : Int
  positions : Ptr
  resetArrayedConnection : Ptr → ArrayedConnectionList

/-- Modelled from the spec: `gl::BufferObject` is declared in a header. Kept are its
boolean conversion, its element count `dataCount()` and the element size of its storage. -/
structure BufferObject where
  valid : Bool
  dataCount : Int
  typeSize : Int
  deriving DecidableEq

/-- Modelled from the spec: the call `buffer.resetData<T>(count, usage)` with
`typeSize = sizeof(T)` gives the buffer storage for `count` elements. -/
def BufferObject.resetData (typeSize count : Int) : BufferObject :=
  { valid := true, dataCount := count, typeSize := typeSize }

/-- Byte size of the storage of a buffer. -/
def BufferObject.byteSize (b : BufferObject) : Int := b.typeSize * b.dataCount

/-- Modelled from the spec: one texture of the `gl::ComputeTexture1D` set
`mSrcBlurPositions`, with the width given to `reset` and the data given to `update`. -/
structure BlurTexture where
  width : Int
  data : Ptr
  dataCount : Int
  deriving DecidableEq

/-- The GL buffers that the task names. -/
inductive BufferName where
  | workInMesh | workInWeight | outMesh | outWeight
  | transformerPositions | transformerXArrows | transformerYArrows
  deriving DecidableEq

/-- Capabilities passed to `glEnable` and `glDisable`. -/
inductive Cap where
  | rasterizerDiscard | texture1D
  deriving DecidableEq

/-- A uniform value. -/
inductive UValue where
  | vec2 (x y : ℚ)
  | float (v : ℚ)
  | int (v : Int)
  | dividable
  deriving DecidableEq

/-- The GL calls, and calls of GL wrappers, issued by the task. -/
inductive GLCmd where
  | resetData (buffer : BufferName) (typeSize count : Int)
  | textureReset (count width : Int)
  | textureUpdate (index : Nat) (data : Ptr) (offset count : Int)
  | meshBufferReserve (count : Int)
  | meshTransform (count : Int)
  | resetRenderState
  | enable (cap : Cap)
  | disable (cap : Cap)
  | programBind (program : ProgramRef)
  | programRelease (program : ProgramRef)
  | setAttributeArray (name : String) (array : Ptr)
  | setAttributeBuffer (name : String) (buffer : BufferName) (tupleSize : Nat)
  | setUniformValue (name : String) (value : UValue)
  | bindBufferBase (index : Nat) (buffer : BufferName)
  | bindBufferRange (index : Nat) (buffer : BufferName) (offset size : Int)
  | beginTransformFeedback
  | drawArrays (first count : Int)
  | endTransformFeedback
  | copyFrom (dst src : BufferName) (typeSize : Int)
  | activeTexture (unit : Nat)
  | bindTexture (texture : Option Nat)
  | bufferBind (buffer : BufferName)
  | getBufferSubData (offset size : Int)
  | bufferRelease (buffer : BufferName)
  deriving DecidableEq

/-- The GL error flag as the driver reports it after a history of calls; a parameter of
the embedding. -/
structure Driver where
  hasError : List GLCmd → Bool

/-- The fields of `Task`. The members `mResource`, `mMeshTransformer` and `mMeshBuffer` are
collaborators: the pool is an argument of the operations, and the calls on the mesh
transformer and its buffer are recorded in the call history. -/
structure Task where
  mSrcExpans : Ptr
  mSrcMesh : ArrayBlock
  mArrayedConnectionList : ArrayedConnectionList
  mSrcBlurPositions : List BlurTexture
  mWorkInMesh : BufferObject
  mWorkInWeight : BufferObject
  mOutMesh : BufferObject
  mOutWeight : BufferObject
  mOriginMesh : Ptr
  mDstMesh : Option Int
  mVtxCount : Int
  mDstBufferCount : Int
  mWorldMtx : List ℚ
  mWorldInvMtx : List ℚ
  mParam : FFDParam
  mBrushCenter : ℚ × ℚ
  mBrushVel : ℚ × ℚ
  mUseBlur : Bool
  deriving DecidableEq

/-- The identity `QMatrix4x4()`. -/
def identityMtx : List ℚ := [1, 0, 0, 0, 0, 1, 0, 0, 0, 0, 1, 0, 0, 0, 0, 1]

/-- The constructor `Task::Task`. The value of a default `FFDParam` and the
boolean conversion of a buffer without storage are decided in headers and are
arguments. -/
def Task.new (param0 : FFDParam) (valid0 : Bool) : Task :=
  { mSrcExpans := none
    mSrcMesh := { array := none, count := 0 }
    mArrayedConnectionList := { blocks := [], indexRanges := none }
    mSrcBlurPositions := []
    mWorkInMesh := { valid := valid0, dataCount := 0, typeSize := 0 }
    mWorkInWeight := { valid := valid0, dataCount := 0, typeSize := 0 }
    mOutMesh := { valid := valid0, dataCount := 0, typeSize := 0 }
    mOutWeight := { valid := valid0, dataCount := 0, typeSize := 0 }
    mOriginMesh := none
    mDstMesh := none
    mVtxCount := 0
    mDstBufferCount := 0
    mWorldMtx := identityMtx
    mWorldInvMtx := identityMtx
    mParam := param0
    mBrushCenter := (0, 0)
    mBrushVel := (0, 0)
    mUseBlur := false }

/-! ## Task: operations -/

/-- The function `Task::resetDst`. -/
def Task.resetDst (aVtxCount : Int) (s : Task) (g : List GLCmd) :
    Except Failure (Task × List GLCmd) :=
  if aVtxCount > 0 then
    let s1 := { s with mVtxCount := aVtxCount }
    if s1.mDstBufferCount < aVtxCount then
      let s2 := { s1 with mDstBufferCount := aVtxCount }
      let s3 := { s2 with mDstMesh := some s2.mVtxCount }
      let s4 := { s3 with mOutMesh := BufferObject.resetData sizeofVector3 s3.mVtxCount }
      let s5 := { s4 with mOutWeight := BufferObject.resetData sizeofGLfloat s4.mVtxCount }
      .ok (s5, g ++ [.resetData .outMesh sizeofVector3 s3.mVtxCount,
                     .resetData .outWeight sizeofGLfloat s4.mVtxCount])
    else
      .ok (s1, g)
  else
    .error (.assertion "aVtxCount > 0")

/-- The loop of `writeSrc` that uploads the positions of block `i` into texture `i`,
run over the remaining values of `i`. -/
def updateTextures (blocks : List ArrayedConnection) :
    List Nat → List BlurTexture → List GLCmd → Except Failure (List BlurTexture × List GLCmd)
  | [], texs, g => .ok (texs, g)
  | i :: rest, texs, g =>
    match blocks.get? i, texs.get? i with
    | some block, some tex =>
      updateTextures blocks rest
        (texs.set i { tex with data := block.positions, dataCount := block.positionCount })
        (g ++ [.textureUpdate i block.positions 0 block.positionCount])
    | _, _ => .error (.outOfRange "blocks.at(i)")

/-- The function `Task::writeSrc`; `aSrcExpans` names the referenced object. -/
def Task.writeSrc (K : Consts) (aSrcExpans : Nat) (aSrcMesh : Ptr) (aOriginMesh : LayerMesh)
    (aParam : FFDParam) (s : Task) (g : List GLCmd) : Except Failure (Task × List GLCmd) :=
  if aSrcMesh.isSome then
    let vtxCount := aOriginMesh.vertexCount
    if vtxCount > 0 then
      let s1 := { s with mSrcExpans := some aSrcExpans }
      let s2 := { s1 with mSrcMesh := { array := aSrcMesh, count := vtxCount } }
      let s3 := { s2 with mParam := aParam }
      let s4 := { s3 with mOriginMesh := aOriginMesh.positions }
      let s5 := { s4 with mUseBlur := decide (aParam.type = kTypeDeformer ∧ aParam.blur > 0) }
      if s5.mUseBlur then
        let s6 := { s5 with mWorkInMesh := BufferObject.resetData sizeofVector3 vtxCount }
        let s7 := { s6 with mWorkInWeight := BufferObject.resetData sizeofGLfloat vtxCount }
        let g1 := g ++ [.resetData .workInMesh sizeofVector3 vtxCount,
                        .resetData .workInWeight sizeofGLfloat vtxCount]
        let s8 := { s7 with mArrayedConnectionList := aOriginMesh.resetArrayedConnection aSrcMesh }
        let count := s8.mArrayedConnectionList.blocks.length
        let texs0 : List BlurTexture :=
          List.replicate count { width := K.kMaxCount, data := none, dataCount := 0 }
        let g2 := g1 ++ [.textureReset count K.kMaxCount]
        match updateTextures s8.mArrayedConnectionList.blocks (List.range count) texs0 g2 with
        | .error e => .error e
        | .ok (texs, g3) => .ok ({ s8 with mSrcBlurPositions := texs }, g3)
      else
        .ok (s5, g)
    else
      .error (.assertion "vtxCount > 0")
  else
    .error (.assertion "aSrcMesh")

/-- The function `Task::setBrush`. -/
def Task.setBrush (aWorldMtx aWorldInvMtx : List ℚ) (aBrushCenter aBrushVel : ℚ × ℚ)
    (s : Task) : Task :=
  { s with
    mWorldMtx := aWorldMtx
    mWorldInvMtx := aWorldInvMtx
    mBrushCenter := aBrushCenter
    mBrushVel := aBrushVel }

/-- The value `const int count = block->vertexRange.diff() + 1` of `requestBlur`. -/
def blurCount (block : ArrayedConnection) : Int := wrapInt32 (block.vertexRange.diff + 1)

/-- The calls of one round of the block loop of `requestBlur` whose `count > 0`,
for the block at position `i`. -/
def blurBlockCmds (K : Consts) (s : Task) (i : Nat) (block : ArrayedConnection) : List GLCmd :=
  let begin := block.vertexRange.min
  let count := blurCount block
  [ .programBind .blur,
    .bindTexture (some i),
    .setAttributeBuffer "inPosition" .workInMesh 3,
    .setAttributeBuffer "inWeight" .workInWeight 1,
    .setAttributeArray "inOriginPosition" s.mOriginMesh,
    .setAttributeArray "inIndexRange" s.mArrayedConnectionList.indexRanges,
    .setUniformValue "uConnections" (.int 0),
    .setUniformValue "uConnectionCount" (.int K.kMaxCount),
    .setUniformValue "uBlurPressure" (.float s.mParam.blur),
    .bindBufferRange 0 .outMesh (begin * sizeofGLfloat * 3) (count * sizeofGLfloat * 3),
    .beginTransformFeedback,
    .drawArrays begin count,
    .endTransformFeedback,
    .programRelease .blur ]

/-- The loop `for (auto block : mArrayedConnectionList.blocks)` of `requestBlur`
with its counter `i`, run over the remaining blocks. -/
def blurLoop (K : Consts) (s : Task) :
    List ArrayedConnection → Nat → List GLCmd → Except Failure (List GLCmd)
  | [], _, g => .ok g
  | block :: rest, i, g =>
    if blurCount block > 0 then
      match s.mSrcBlurPositions.get? i with
      | none => .error (.outOfRange "mSrcBlurPositions.at(i)")
      | some _ => blurLoop K s rest (i + 1) (g ++ blurBlockCmds K s i block)
    else
      blurLoop K s rest (i + 1) g

/-- The calls of `requestBlur` before its block loop: the two staging copies and the
state switches. -/
def blurPrologue : List GLCmd :=
  [.copyFrom .workInMesh .outMesh sizeofVector3,
   .copyFrom .workInWeight .outWeight sizeofGLfloat,
   .enable .rasterizerDiscard, .enable .texture1D, .activeTexture 0]

/-- The calls of `requestBlur` after its block loop. -/
def blurEpilogue : List GLCmd :=
  [.activeTexture 0, .bindTexture none, .disable .texture1D, .disable .rasterizerDiscard]

/-- The function `Task::requestBlur`. -/
def Task.requestBlur (d : Driver) (K : Consts) (s : Task) (g : List GLCmd) :
    Except Failure (List GLCmd) :=
  match blurLoop K s s.mArrayedConnectionList.blocks 0 (g ++ blurPrologue) with
  | .error e => .error e
  | .ok g2 =>
    let g3 := g2 ++ blurEpilogue
    if d.hasError g3 then .error (.assertion "glGetError() == GL_NO_ERROR") else .ok g3

/-- The attribute, uniform and feedback bindings of `onRequested`, by brush type. -/
def deformBindings (s : Task) : List GLCmd :=
  if s.mParam.type = kTypeDeformer then
    [ .setAttributeArray "inPosition" s.mSrcMesh.array,
      .setAttributeBuffer "inWorldPosition" .transformerPositions 3,
      .setAttributeBuffer "inXArrow" .transformerXArrows 3,
      .setAttributeBuffer "inYArrow" .transformerYArrows 3,
      .setUniformValue "uBrushCenter" (.vec2 s.mBrushCenter.1 s.mBrushCenter.2),
      .setUniformValue "uBrushVel" (.vec2 s.mBrushVel.1 s.mBrushVel.2),
      .setUniformValue "uBrushRadius" (.float s.mParam.radius),
      .setUniformValue "uBrushPressure" (.float s.mParam.pressure),
      .setUniformValue "uDividable" .dividable,
      .bindBufferBase 0 .outMesh,
      .bindBufferBase 1 .outWeight ]
  else
    [ .setAttributeArray "inPosition" s.mSrcMesh.array,
      .setAttributeBuffer "inWorldPosition" .transformerPositions 3,
      .setAttributeArray "inOriginPosition" s.mOriginMesh,
      .setUniformValue "uBrushCenter" (.vec2 s.mBrushCenter.1 s.mBrushCenter.2),
      .setUniformValue "uBrushRadius" (.float s.mParam.eraseRadius),
      .setUniformValue "uBrushPressure" (.float s.mParam.erasePressure),
      .bindBufferBase 0 .outMesh ]

/-- The calls of the deformation pass of `onRequested`, from
`gl::Util::resetRenderState()` to `glDisable(GL_RASTERIZER_DISCARD)`. -/
def deformPass (K : Consts) (s : Task) : List GLCmd :=
  let program := ProgramRef.variation (programSlot K s.mParam.type s.mParam.hardness)
  [.resetRenderState, .enable .rasterizerDiscard, .programBind program]
    ++ deformBindings s
    ++ [.beginTransformFeedback, .drawArrays 0 s.mSrcMesh.count, .endTransformFeedback,
        .programRelease program, .disable .rasterizerDiscard]

/-- The calls of `onRequested` that hand the source mesh to the mesh transformer. -/
def transformCalls (s : Task) : List GLCmd :=
  [.meshBufferReserve s.mSrcMesh.count, .meshTransform s.mSrcMesh.count]

/-- The function `Task::onRequested`. -/
def Task.onRequested (d : Driver) (K : Consts) (res : Resource) (s : Task) (g : List GLCmd) :
    Except Failure (List GLCmd) :=
  if s.mSrcExpans.isSome then
    if s.mSrcMesh.array.isSome ∧ s.mOutMesh.valid = true ∧ s.mParam.radius > 0 then
      if s.mSrcMesh.count ≤ s.mOutMesh.dataCount then
        let g1 := g ++ transformCalls s
        match res.program K s.mParam.type s.mParam.hardness with
        | .error e => .error e
        | .ok _ =>
          let g2 := g1 ++ deformPass K s
          let afterBlur : Except Failure (List GLCmd) :=
            if s.mUseBlur then Task.requestBlur d K s g2 else .ok g2
          match afterBlur with
          | .error e => .error e
          | .ok g3 =>
            if d.hasError g3 then .error (.assertion "glGetError() == GL_NO_ERROR") else .ok g3
      else
        .error (.assertion "mSrcMesh.count() <= mOutMesh.dataCount()")
    else
      .error (.assertion "mSrcMesh && mOutMesh && mParam.radius > 0.0f")
  else
    .error (.assertion "mSrcExpans")

/-- The calls of `onFinished`: bind the output mesh buffer, read
`sizeof(gl::Vector3) * mVtxCount` bytes from offset 0 into `mDstMesh`, release. -/
def readbackCalls (s : Task) : List GLCmd :=
  [.bufferBind .outMesh, .getBufferSubData 0 (sizeofVector3 * s.mVtxCount),
   .bufferRelease .outMesh]

/-- The function `Task::onFinished`. -/
def Task.onFinished (d : Driver) (s : Task) (g : List GLCmd) : Except Failure (List GLCmd) :=
  let g1 := g ++ readbackCalls s
  if d.hasError g1 then .error (.assertion "glGetError() == GL_NO_ERROR") else .ok g1

/-- A call of a public operation of `Task`. -/
inductive Op where
  | resetDst (aVtxCount : Int)
  | writeSrc (aSrcExpans : Nat) (aSrcMesh : Ptr) (aOriginMesh : LayerMesh) (aParam : FFDParam)
  | setBrush (aWorldMtx aWorldInvMtx : List ℚ) (aBrushCenter aBrushVel : ℚ × ℚ)
  | onRequested
  | onFinished

/-- Runs one call on the task and the GL call history. -/
def Op.run (d : Driver) (K : Consts) (res : Resource) (op : Op) (st : Task × List GLCmd) :
    Except Failure (Task × List GLCmd) :=
  match op with
  | .resetDst n => Task.resetDst n st.1 st.2
  | .writeSrc e m o p => Task.writeSrc K e m o p st.1 st.2
  | .setBrush w wi c v => .ok (Task.setBrush w wi c v st.1, st.2)
  | .onRequested =>
    match Task.onRequested d K res st.1 st.2 with
    | .error e => .error e
    | .ok g => .ok (st.1, g)
  | .onFinished =>
    match Task.onFinished d st.1 st.2 with
    | .error e => .error e
    | .ok g => .ok (st.1, g)

/-- Runs a sequence of calls, stopping at the first failure. -/
def runOps (d : Driver) (K : Consts) (res : Resource) :
    List Op → Task × List GLCmd → Except Failure (Task × List GLCmd)
  | [], st => .ok st
  | op :: rest, st =>
    match op.run d K res st with
    | .error e => .error e
    | .ok st1 => runOps d K res rest st1

/-! ## Specification side: plans of `setup` and example inputs -/

/-- The source that `buildShader` compiles for a hardness value. -/
def variationSource (code : String) (aHard : Int) : ExtendShader :=
  { text := code, variation := [("HARDNESS", toString aHard)] }

/-- The program that a successful `buildShader` leaves in its slot. -/
def builtProgram (code : String) (aType aHard : Int) : EasyShaderProgram :=
  { vertexSource := some (variationSource code aHard),
    feedbackVaryings := shaderVaryings aType,
    linked := true }

/-- The program that a successful `buildBlurShader` leaves in `mBlurProgram`. -/
def builtBlurProgram (code : String) : EasyShaderProgram :=
  { vertexSource := some { text := code, variation := [] },
    feedbackVaryings := ["outPosition"],
    linked := true }

/-- The steps of one complete program build. -/
def buildSteps (target : ProgramRef) (source : ExtendShader) (varyings : List String) :
    List Step :=
  [.resolveVariation source, .setVertexSource target source,
   .transformFeedbackVaryings target varyings, .link target source varyings, .getError]

/-- The steps of one complete hardness loop of `setup`. -/
def loopSteps (K : Consts) (code : String) (aType : Int) : List Nat → List Step
  | [] => []
  | hard :: rest =>
    buildSteps (.variation (programSlot K aType hard)) (variationSource code hard)
        (shaderVaryings aType)
      ++ loopSteps K code aType rest

/-- The steps of a complete `setup`, given the texts of the three files. -/
def setupSteps (K : Consts) (aBrushPath aEraserPath aBlurPath : String)
    (brushCode eraserCode blurCode : String) : List Step :=
  [.loadFile aBrushPath]
    ++ loopSteps K brushCode kTypeDeformer (List.range K.kHardness)
    ++ [.loadFile aEraserPath]
    ++ loopSteps K eraserCode kTypeEraser (List.range K.kHardness)
    ++ [.loadFile aBlurPath]
    ++ buildSteps .blur (ExtendShader.openFromText blurCode) ["outPosition"]

/-- Whether a load, resolve, compile or link step fails in an environment. -/
def Env.fails (env : Env) : Step → Bool
  | .loadFile p => (env.readFile p).isNone
  | .resolveVariation s => !env.resolveVariation s
  | .setVertexSource _ s => !env.compileVertex s
  | .transformFeedbackVaryings _ _ => false
  | .link _ s v => !env.link s v
  | .getError => false

/-- The fatal error that a failing step raises. -/
def fatalOf : Step → Failure
  | .loadFile p => .fatalError "FileIO Error" p
  | .resolveVariation _ => .fatalError "OpenGL Error" "Failed to resolve shader variation."
  | .setVertexSource _ _ => .fatalError "OpenGL Error" "Failed to compile vertex shader."
  | .link _ _ _ => .fatalError "OpenGL Error" "Failed to link shader."
  | _ => .assertion "glGetError() == GL_NO_ERROR"

/-- The steps of a list up to and including the first one that satisfies `p`. -/
def upToFirst {α : Type} (p : α → Bool) : List α → List α
  | [] => []
  | x :: xs => if p x then [x] else x :: upToFirst p xs

/-- The outcome of running a plan: the steps up to the first failing one, and
either the value or the fatal error of that step. -/
def planOutcome {α : Type} (env : Env) (tr : List Step) (plan : List Step) (a : α) : Traced α :=
  { trace := tr ++ upToFirst env.fails plan,
    result := match plan.find? env.fails with
      | none => .ok a
      | some st => .error (fatalOf st) }

/-- The array after the rounds of one hardness loop have stored their programs. -/
def storeLoop (K : Consts) (code : String) (aType : Int) :
    List Nat → List EasyShaderProgram → List EasyShaderProgram
  | [], ps => ps
  | hard :: rest, ps =>
    storeLoop K code aType rest
      (ps.set (programSlot K aType hard).toNat (builtProgram code aType hard))

/-- The pool that a complete `setup` returns. -/
def builtResource (K : Consts) (r : Resource) (brushCode eraserCode blurCode : String) :
    Resource :=
  { mProgram :=
      storeLoop K eraserCode kTypeEraser (List.range K.kHardness)
        (storeLoop K brushCode kTypeDeformer (List.range K.kHardness) r.mProgram),
    mBlurProgram := builtBlurProgram blurCode }

/-- The targets of the link steps of a trace, in order. -/
def linkTargets : List Step → List ProgramRef
  | [] => []
  | .link target _ _ :: rest => target :: linkTargets rest
  | _ :: rest => linkTargets rest

/-- The paths of the load steps of a trace, in order. -/
def loadedPaths : List Step → List String
  | [] => []
  | .loadFile p :: rest => p :: loadedPaths rest
  | _ :: rest => loadedPaths rest

/-- The steps of a complete `setup` in an environment, with the file texts that the
environment supplies. -/
def Env.setupPlan (env : Env) (K : Consts) (pb pe pl : String) : List Step :=
  setupSteps K pb pe pl ((env.readFile pb).getD "") ((env.readFile pe).getD "")
    ((env.readFile pl).getD "")

/-- Example constants: two brush types, three hardness levels. -/
def exampleConsts : Consts := { kType := 2, kHardness := 3, kVariation := 6, kMaxCount := 8 }

/-- Example environment: every file holds its own path as text, every step succeeds. -/
def exampleEnv : Env :=
  { readFile := fun p => some p
    resolveVariation := fun _ => true
    compileVertex := fun _ => true
    link := fun _ _ => true
    glError := fun _ => false }

/-- Example failing environment: as the example environment, but linking succeeds only
for programs that declare two varyings. -/
def exampleFailEnv : Env :=
  { readFile := fun p => some p
    resolveVariation := fun _ => true
    compileVertex := fun _ => true
    link := fun _ varyings => decide (varyings.length = 2)
    glError := fun _ => false }

/-- Example pool: the array of six default programs that the constructor leaves. -/
def examplePool : Resource :=
  { mProgram := List.replicate 6 default, mBlurProgram := default }

/-- Example pool after `setup` with the example environment. -/
def exampleBuiltPool : Resource :=
  builtResource exampleConsts examplePool "brush" "eraser" "blur"

/-! ## Specification side: calls, invariant and observations of the task -/

/-- Number of elements of the host array `mDstMesh`, zero when it is null. -/
def Task.hostCount (s : Task) : Int := s.mDstMesh.getD 0

/-- Whether a call is `resetDst`. -/
def Op.isResetDst : Op → Bool
  | .resetDst _ => true
  | _ => false

/-- Example driver: the GL error flag is always clear. -/
def cleanDriver : Driver := { hasError := fun _ => false }

/-- Example parameter: Deformer, hardness 1, radius 2, no blur. -/
def exampleParam : FFDParam :=
  { type := 0, hardness := 1, radius := 2, pressure := 1, blur := 0,
    eraseRadius := 2, erasePressure := 1 }

/-- Example origin mesh of three vertices with a single connection block. -/
def exampleMesh : LayerMesh :=
  { vertexCount := 3
    positions := some 7
    resetArrayedConnection := fun _ =>
      { blocks := [{ vertexRange := { min := 0, max := 2 }, positions := some 9,
                     positionCount := 24 }],
        indexRanges := some 8 } }

/-- Example task: a new task whose buffers are not valid before they get storage. -/
def exampleTask : Task := Task.new exampleParam false

/-- The calls of the block loop of `requestBlur`, by position: the block at position `k`
contributes its calls, with texture `k`, when its `count` is positive, and nothing
otherwise. -/
def blurLoopCalls (K : Consts) (s : Task) (start : Nat) (blocks : List ArrayedConnection) :
    List GLCmd :=
  (blocks.enumFrom start).flatMap (fun kb =>
    if blurCount kb.2 > 0 then blurBlockCmds K s kb.1 kb.2 else [])

/-- The bounds of a block are `int` values and its vertex count `max - min + 1` is formed
without overflow. -/
abbrev IntCount (block : ArrayedConnection) : Prop :=
  -2147483648 ≤ block.vertexRange.min ∧ block.vertexRange.min ≤ 2147483647 ∧
  -2147483648 ≤ block.vertexRange.max ∧ block.vertexRange.max ≤ 2147483647 ∧
  -2147483648 ≤ block.vertexRange.max - block.vertexRange.min ∧
  block.vertexRange.max - block.vertexRange.min + 1 ≤ 2147483647

/-- The calls of a complete `requestBlur`. -/
def blurCalls (K : Consts) (s : Task) : List GLCmd :=
  blurPrologue ++ blurLoopCalls K s 0 s.mArrayedConnectionList.blocks ++ blurEpilogue

/-- The calls of a complete `onRequested`. -/
def requestCalls (K : Consts) (s : Task) : List GLCmd :=
  transformCalls s ++ deformPass K s ++ (if s.mUseBlur then blurCalls K s else [])

/-- The invariant of the task kept by every call: the vertex count is within the capacity,
the output buffers and the host array hold as many elements as the capacity, they are
allocated once the capacity is positive, and there is one blur texture per connection
block. -/
def Task.Inv (s : Task) : Prop :=
  0 ≤ s.mVtxCount ∧ s.mVtxCount ≤ s.mDstBufferCount ∧
  s.mOutMesh.dataCount = s.mDstBufferCount ∧
  s.mOutWeight.dataCount = s.mDstBufferCount ∧
  s.hostCount = s.mDstBufferCount ∧
  (0 < s.mDstBufferCount →
    s.mDstMesh = some s.mDstBufferCount ∧
    s.mOutMesh = BufferObject.resetData sizeofVector3 s.mDstBufferCount ∧
    s.mOutWeight = BufferObject.resetData sizeofGLfloat s.mDstBufferCount) ∧
  s.mSrcBlurPositions.length = s.mArrayedConnectionList.blocks.length

/-- The argument of a call when it is `resetDst`. -/
def Op.resetCount : Op → Option Int
  | .resetDst n => some n
  | _ => none

/-- The vertex count of the origin mesh of a call when it is `writeSrc`. -/
def Op.writeCount : Op → Option Int
  | .writeSrc _ _ o _ => some o.vertexCount
  | _ => none

/-- The argument of the last `resetDst` of a sequence of calls. -/
def lastResetDst : List Op → Option Int
  | [] => none
  | op :: rest => (lastResetDst rest).or op.resetCount

/-- The vertex count of the origin mesh of the last `writeSrc` of a sequence of calls. -/
def lastWriteSrc : List Op → Option Int
  | [] => none
  | op :: rest => (lastWriteSrc rest).or op.writeCount

/-- The vertex counts of the draws of a call history, in order. -/
def drawCounts : List GLCmd → List Int
  | [] => []
  | .drawArrays _ count :: rest => count :: drawCounts rest
  | _ :: rest => drawCounts rest

/-- The byte sizes of the buffer readbacks of a call history, in order. -/
def readbackSizes : List GLCmd → List Int
  | [] => []
  | .getBufferSubData _ size :: rest => size :: readbackSizes rest
  | _ :: rest => readbackSizes rest

/-- A transform feedback binding: the buffer and, for a range binding, the byte offset and
size; `none` is the whole buffer. -/
structure FeedbackBinding where
  buffer : BufferName
  range : Option (Int × Int)
  deriving DecidableEq

/-- The bindings that a draw uses: program, 1D texture and feedback slots 0 and 1. -/
structure Bound where
  program : Option ProgramRef
  texture : Option Nat
  feedback0 : Option FeedbackBinding
  feedback1 : Option FeedbackBinding
  deriving DecidableEq

/-- Nothing bound. -/
def Bound.empty : Bound :=
  { program := none, texture := none, feedback0 := none, feedback1 := none }

/-- A draw with the bindings in force when it is issued. -/
structure DrawRecord where
  bound : Bound
  first : Int
  count : Int
  deriving DecidableEq

/-- The effect of one call on the bindings. -/
def Bound.apply (b : Bound) : GLCmd → Bound
  | .programBind p => { b with program := some p }
  | .programRelease _ => { b with program := none }
  | .bindTexture t => { b with texture := t }
  | .bindBufferBase i buf =>
    if i = 0 then { b with feedback0 := some { buffer := buf, range := none } }
    else if i = 1 then { b with feedback1 := some { buffer := buf, range := none } }
    else b
  | .bindBufferRange i buf off size =>
    if i = 0 then { b with feedback0 := some { buffer := buf, range := some (off, size) } }
    else if i = 1 then { b with feedback1 := some { buffer := buf, range := some (off, size) } }
    else b
  | _ => b

/-- The draws of a call history with their bindings, in order. -/
def drawsOf : Bound → List GLCmd → List DrawRecord
  | _, [] => []
  | b, .drawArrays first count :: rest =>
    { bound := b, first := first, count := count } :: drawsOf b rest
  | b, c :: rest => drawsOf (b.apply c) rest

/-- The bindings after a call history. -/
def boundAfter (b : Bound) (calls : List GLCmd) : Bound :=
  calls.foldl Bound.apply b

/-- Whether a call binds a byte range of a buffer as feedback target. -/
def GLCmd.isBindBufferRange : GLCmd → Bool
  | .bindBufferRange _ _ _ _ => true
  | _ => false

/-- Whether a call copies one buffer into another. -/
def GLCmd.isCopyFrom : GLCmd → Bool
  | .copyFrom _ _ _ => true
  | _ => false

/-- Whether a call binds the given buffer as a feedback target. -/
def GLCmd.bindsFeedback (buf : BufferName) : GLCmd → Bool
  | .bindBufferBase _ b => decide (b = buf)
  | .bindBufferRange _ b _ _ => decide (b = buf)
  | _ => false

/-- The draw that the block at position `k` of the blur pass issues. -/
def blurDraw (fb1 : Option FeedbackBinding) (k : Nat) (block : ArrayedConnection) : DrawRecord :=
  { bound :=
      { program := some .blur
        texture := some k
        feedback0 := some
          { buffer := .outMesh,
            range := some (12 * block.vertexRange.min,
              12 * (block.vertexRange.max - block.vertexRange.min + 1)) }
        feedback1 := fb1 }
    first := block.vertexRange.min
    count := block.vertexRange.max - block.vertexRange.min + 1 }

/-- The draws of the blur pass, by position: the block at position `k` gives one draw
when `max - min + 1 > 0` and none otherwise. -/
def blurDraws (fb1 : Option FeedbackBinding) (start : Nat) (blocks : List ArrayedConnection) :
    List DrawRecord :=
  (blocks.enumFrom start).filterMap (fun kb =>
    if kb.2.vertexRange.max - kb.2.vertexRange.min + 1 > 0 then some (blurDraw fb1 kb.1 kb.2)
    else none)

/-- The draw of the deformation pass. -/
def deformDraw (K : Consts) (s : Task) : DrawRecord :=
  { bound :=
      { program := some (.variation (programSlot K s.mParam.type s.mParam.hardness))
        texture := none
        feedback0 := some { buffer := .outMesh, range := none }
        feedback1 :=
          if s.mParam.type = kTypeDeformer then some { buffer := .outWeight, range := none }
          else none }
    first := 0
    count := s.mSrcMesh.count }

/-- The byte range to which a draw captures at feedback slot 0, when it is a range of the
output position buffer. -/
def DrawRecord.outMeshRange (r : DrawRecord) : Option (Int × Int) :=
  match r.bound.feedback0 with
  | some { buffer := .outMesh, range := some range } => some range
  | _ => none

/-- Example parameter with the hardness `kHardness = 3` of the example constants, one past
the last level. -/
def exampleParamHard3 : FFDParam :=
  { type := 0, hardness := 3, radius := 2, pressure := 1, blur := 0,
    eraseRadius := 2, erasePressure := 1 }

/-- What a run drew and read back: the vertex counts of its draws and the byte sizes of its
readbacks. -/
def observe (r : Except Failure (Task × List GLCmd)) : Except Failure (List Int × List Int) :=
  match r with
  | .error e => .error e
  | .ok st => .ok (drawCounts st.2, readbackSizes st.2)

/-- Runs a sequence of calls and returns the state and history reached, or the given
state when a call fails. -/
def reached (d : Driver) (K : Consts) (res : Resource) (ops : List Op)
    (st : Task × List GLCmd) : Task × List GLCmd :=
  match runOps d K res ops st with
  | .ok st2 => st2
  | .error _ => st

/-- Example sequence of calls: capacity 5, a mesh of three vertices, a brush, then a
smaller vertex count. -/
def exampleOps : List Op :=
  [.resetDst 5, .writeSrc 0 (some 1) exampleMesh exampleParam,
   .setBrush identityMtx identityMtx (1, 1) (0, 0), .resetDst 2]

/-- Example reached state: the example sequence run on the example task. -/
def exampleReached : Task × List GLCmd :=
  reached cleanDriver exampleConsts exampleBuiltPool exampleOps (exampleTask, [])

/-- Example parameter: Deformer, hardness 1, radius 2, blur 1. -/
def exampleBlurParam : FFDParam :=
  { type := 0, hardness := 1, radius := 2, pressure := 1, blur := 1,
    eraseRadius := 2, erasePressure := 1 }

/-- Example parameter: Eraser, hardness 2, radius 2. -/
def exampleEraserParam : FFDParam :=
  { type := 1, hardness := 2, radius := 2, pressure := 1, blur := 1,
    eraseRadius := 2, erasePressure := 1 }

/-- Example origin mesh of four vertices with three connection blocks, the second one
without vertices. -/
def exampleBlurMesh : LayerMesh :=
  { vertexCount := 4
    positions := some 7
    resetArrayedConnection := fun _ =>
      { blocks := [{ vertexRange := { min := 0, max := 1 }, positions := some 9,
                     positionCount := 16 },
                   { vertexRange := { min := 2, max := 1 }, positions := some 10,
                     positionCount := 0 },
                   { vertexRange := { min := 2, max := 3 }, positions := some 11,
                     positionCount := 16 }],
        indexRanges := some 8 } }

/-- Example state configured for blur: capacity 4 and the example blur mesh. -/
def exampleBlurState : Task × List GLCmd :=
  reached cleanDriver exampleConsts exampleBuiltPool
    [.resetDst 4, .writeSrc 0 (some 1) exampleBlurMesh exampleBlurParam] (exampleTask, [])

/-! ## Task::Resource: lemmas and theorems -/

theorem upToFirst_append {α : Type} (p : α → Bool) (l1 l2 : List α) :
    upToFirst p (l1 ++ l2) =
      match l1.find? p with
      | none => l1 ++ upToFirst p l2
      | some _ => upToFirst p l1 := by
  induction l1 with
  | nil => simp [upToFirst]
  | cons x xs ih =>
    by_cases hx : p x = true
    · simp [upToFirst, hx]
    · simp only [Bool.not_eq_true] at hx
      simp [upToFirst, hx, List.find?, ih]
      cases h : xs.find? p <;> simp

theorem upToFirst_of_find_none {α : Type} (p : α → Bool) (l : List α)
    (h : l.find? p = none) : upToFirst p l = l := by
  induction l with
  | nil => rfl
  | cons x xs ih =>
    by_cases hx : p x = true
    · simp [List.find?, hx] at h
    · simp only [Bool.not_eq_true] at hx
      simp only [List.find?, hx] at h
      simp [upToFirst, hx, ih h]

theorem planOutcome_of_find_none {α : Type} (env : Env) (tr plan : List Step) (a : α)
    (h : plan.find? env.fails = none) :
    planOutcome env tr plan a = { trace := tr ++ plan, result := .ok a } := by
  simp [planOutcome, h, upToFirst_of_find_none _ _ h]

theorem planOutcome_of_find_some {α : Type} (env : Env) (tr plan : List Step) (a : α)
    (st : Step) (h : plan.find? env.fails = some st) :
    planOutcome env tr plan a =
      { trace := tr ++ upToFirst env.fails plan, result := .error (fatalOf st) } := by
  simp [planOutcome, h]

theorem planOutcome_append_of_none {α : Type} (env : Env) (tr p1 p2 : List Step) (b : α)
    (h : p1.find? env.fails = none) :
    planOutcome env tr (p1 ++ p2) b = planOutcome env (tr ++ p1) p2 b := by
  simp [planOutcome, upToFirst_append, List.find?_append, h]

theorem planOutcome_append_of_some {α : Type} (env : Env) (tr p1 p2 : List Step) (b : α)
    (st : Step) (h : p1.find? env.fails = some st) :
    planOutcome env tr (p1 ++ p2) b =
      { trace := tr ++ upToFirst env.fails p1, result := .error (fatalOf st) } := by
  simp [planOutcome, upToFirst_append, List.find?_append, h]

theorem buildShader_outcome (env : Env) (hclean : ∀ t, env.glError t = false)
    (target : ProgramRef) (aProgram : EasyShaderProgram) (aCode : String) (aType aHard : Int)
    (tr : List Step) :
    buildShader env target aProgram aCode aType aHard tr =
      planOutcome env tr (buildSteps target (variationSource aCode aHard) (shaderVaryings aType))
        (builtProgram aCode aType aHard) := by
  simp only [buildShader, planOutcome, buildSteps, hclean, ExtendShader.openFromText,
    ExtendShader.setVariationValue, variationSource, List.nil_append]
  by_cases h1 : env.resolveVariation ⟨aCode, [("HARDNESS", toString aHard)]⟩ = true
  · by_cases h2 : env.compileVertex ⟨aCode, [("HARDNESS", toString aHard)]⟩ = true
    · by_cases h3 : env.link ⟨aCode, [("HARDNESS", toString aHard)]⟩ (shaderVaryings aType) = true
      · simp [h1, h2, h3, upToFirst, Env.fails, List.find?, builtProgram, variationSource]
      · simp [h1, h2, h3, upToFirst, Env.fails, List.find?, fatalOf]
    · simp [h1, h2, upToFirst, Env.fails, List.find?, fatalOf]
  · simp [h1, upToFirst, Env.fails, List.find?, fatalOf]

theorem storeLoop_length (K : Consts) (code : String) (aType : Int) (hards : List Nat)
    (ps : List EasyShaderProgram) : (storeLoop K code aType hards ps).length = ps.length := by
  induction hards generalizing ps with
  | nil => rfl
  | cons h rest ih => simp [storeLoop, ih]

theorem buildLoop_outcome (env : Env) (hclean : ∀ t, env.glError t = false) (K : Consts)
    (code : String) (aType : Int) (hards : List Nat) (r : Resource) (tr : List Step)
    (hin : ∀ h ∈ hards, 0 ≤ programSlot K aType (h : Nat) ∧
      programSlot K aType (h : Nat) < (r.mProgram.length : Int)) :
    buildLoop env K code aType hards r tr =
      planOutcome env tr (loopSteps K code aType hards)
        { r with mProgram := storeLoop K code aType hards r.mProgram } := by
  induction hards generalizing r tr with
  | nil => simp [buildLoop, loopSteps, planOutcome, upToFirst, storeLoop]
  | cons h rest ih =>
    have hh := hin h (List.mem_cons_self _ _)
    have hrest : ∀ x ∈ rest, 0 ≤ programSlot K aType (x : Nat) ∧
        programSlot K aType (x : Nat) <
          (((r.mProgram.set (programSlot K aType (h : Nat)).toNat
            (builtProgram code aType h)).length : Nat) : Int) := by
      intro x hx
      simpa using hin x (List.mem_cons_of_mem _ hx)
    simp only [buildLoop, Resource.element, hh, and_self, if_true, buildShader_outcome env hclean,
      loopSteps, storeLoop]
    cases hf : (buildSteps (.variation (programSlot K aType (h : Nat)))
        (variationSource code h) (shaderVaryings aType)).find? env.fails with
    | none =>
      rw [planOutcome_of_find_none _ _ _ _ hf, planOutcome_append_of_none _ _ _ _ _ hf]
      simp only []
      rw [ih _ _ hrest]
    | some st =>
      rw [planOutcome_of_find_some _ _ _ _ st hf, planOutcome_append_of_some _ _ _ _ _ st hf]

theorem buildBlurShader_outcome (env : Env) (hclean : ∀ t, env.glError t = false)
    (aProgram : EasyShaderProgram) (aCode : String) (tr : List Step) :
    buildBlurShader env aProgram aCode tr =
      planOutcome env tr (buildSteps .blur (ExtendShader.openFromText aCode) ["outPosition"])
        (builtBlurProgram aCode) := by
  simp only [buildBlurShader, planOutcome, buildSteps, hclean, ExtendShader.openFromText,
    List.nil_append]
  by_cases h1 : env.resolveVariation ⟨aCode, []⟩ = true
  · by_cases h2 : env.compileVertex ⟨aCode, []⟩ = true
    · by_cases h3 : env.link ⟨aCode, []⟩ ["outPosition"] = true
      · simp [h1, h2, h3, upToFirst, Env.fails, List.find?, builtBlurProgram]
      · simp [h1, h2, h3, upToFirst, Env.fails, List.find?, fatalOf]
    · simp [h1, h2, upToFirst, Env.fails, List.find?, fatalOf]
  · simp [h1, upToFirst, Env.fails, List.find?, fatalOf]

theorem loadFile_outcome (env : Env) (aPath : String) (tr : List Step) :
    loadFile env aPath tr =
      planOutcome env tr [.loadFile aPath] ((env.readFile aPath).getD "") := by
  cases h : env.readFile aPath <;>
    simp [loadFile, planOutcome, upToFirst, Env.fails, List.find?, fatalOf, h]

theorem slot_in_range (K : Consts) (aType : Int) (n : Nat)
    (ht : aType = kTypeDeformer ∨ aType = kTypeEraser) (hlen : 2 * K.kHardness ≤ n) :
    ∀ h ∈ List.range K.kHardness, 0 ≤ programSlot K aType (h : Nat) ∧
      programSlot K aType (h : Nat) < (n : Int) := by
  intro h hh
  have hlt : h < K.kHardness := List.mem_range.mp hh
  rcases ht with rfl | rfl <;> simp only [programSlot, kTypeDeformer, kTypeEraser] <;> omega

theorem setup_outcome (env : Env) (hclean : ∀ t, env.glError t = false) (K : Consts)
    (r : Resource) (hlen : 2 * K.kHardness ≤ r.mProgram.length)
    (pb pe pl : String) (tr : List Step) :
    Resource.setup env K r pb pe pl tr =
      planOutcome env tr
        (setupSteps K pb pe pl ((env.readFile pb).getD "") ((env.readFile pe).getD "")
          ((env.readFile pl).getD ""))
        (builtResource K r ((env.readFile pb).getD "") ((env.readFile pe).getD "")
          ((env.readFile pl).getD "")) := by
  have hin1 := slot_in_range K kTypeDeformer r.mProgram.length (Or.inl rfl) hlen
  have hin2 : ∀ h ∈ List.range K.kHardness, 0 ≤ programSlot K kTypeEraser (h : Nat) ∧
      programSlot K kTypeEraser (h : Nat) <
        (((storeLoop K ((env.readFile pb).getD "") kTypeDeformer (List.range K.kHardness)
          r.mProgram).length : Nat) : Int) := by
    rw [storeLoop_length]
    exact slot_in_range K kTypeEraser r.mProgram.length (Or.inr rfl) hlen
  simp only [Resource.setup, setupSteps, List.append_assoc, loadFile_outcome,
    buildBlurShader_outcome env hclean]
  cases h1 : ([Step.loadFile pb]).find? env.fails with
  | some st => rw [planOutcome_of_find_some _ _ _ _ st h1, planOutcome_append_of_some _ _ _ _ _ st h1]
  | none =>
    rw [planOutcome_of_find_none _ _ _ _ h1, planOutcome_append_of_none _ _ _ _ _ h1]
    simp only []
    rw [buildLoop_outcome env hclean K _ _ _ _ _ hin1]
    cases h2 : (loopSteps K ((env.readFile pb).getD "") kTypeDeformer
        (List.range K.kHardness)).find? env.fails with
    | some st =>
      rw [planOutcome_of_find_some _ _ _ _ st h2, planOutcome_append_of_some _ _ _ _ _ st h2]
    | none =>
      rw [planOutcome_of_find_none _ _ _ _ h2, planOutcome_append_of_none _ _ _ _ _ h2]
      simp only []
      cases h3 : ([Step.loadFile pe]).find? env.fails with
      | some st =>
        rw [planOutcome_of_find_some _ _ _ _ st h3, planOutcome_append_of_some _ _ _ _ _ st h3]
      | none =>
        rw [planOutcome_of_find_none _ _ _ _ h3, planOutcome_append_of_none _ _ _ _ _ h3]
        simp only []
        rw [buildLoop_outcome env hclean K _ _ _ _ _ hin2]
        cases h4 : (loopSteps K ((env.readFile pe).getD "") kTypeEraser
            (List.range K.kHardness)).find? env.fails with
        | some st =>
          rw [planOutcome_of_find_some _ _ _ _ st h4,
            planOutcome_append_of_some _ _ _ _ _ st h4]
        | none =>
          rw [planOutcome_of_find_none _ _ _ _ h4, planOutcome_append_of_none _ _ _ _ _ h4]
          simp only []
          cases h5 : ([Step.loadFile pl]).find? env.fails with
          | some st =>
            rw [planOutcome_of_find_some _ _ _ _ st h5,
              planOutcome_append_of_some _ _ _ _ _ st h5]
          | none =>
            rw [planOutcome_of_find_none _ _ _ _ h5, planOutcome_append_of_none _ _ _ _ _ h5]
            simp only []
            cases h6 : (buildSteps .blur (ExtendShader.openFromText ((env.readFile pl).getD ""))
                ["outPosition"]).find? env.fails with
            | some st => rw [planOutcome_of_find_some _ _ _ _ st h6, planOutcome_of_find_some _ _ _ _ st h6]
            | none =>
              rw [planOutcome_of_find_none _ _ _ _ h6, planOutcome_of_find_none _ _ _ _ h6]
              simp [builtResource]

theorem linkTargets_append (l1 l2 : List Step) :
    linkTargets (l1 ++ l2) = linkTargets l1 ++ linkTargets l2 := by
  induction l1 with
  | nil => rfl
  | cons x xs ih => cases x <;> simp [linkTargets, ih]

theorem loadedPaths_append (l1 l2 : List Step) :
    loadedPaths (l1 ++ l2) = loadedPaths l1 ++ loadedPaths l2 := by
  induction l1 with
  | nil => rfl
  | cons x xs ih => cases x <;> simp [loadedPaths, ih]

theorem linkTargets_loopSteps (K : Consts) (code : String) (aType : Int) (hards : List Nat) :
    linkTargets (loopSteps K code aType hards) =
      hards.map (fun h => ProgramRef.variation (programSlot K aType (h : Nat))) := by
  induction hards with
  | nil => rfl
  | cons h rest ih => simp [loopSteps, buildSteps, linkTargets, ih]

theorem loadedPaths_loopSteps (K : Consts) (code : String) (aType : Int) (hards : List Nat) :
    loadedPaths (loopSteps K code aType hards) = [] := by
  induction hards with
  | nil => rfl
  | cons h rest ih => simp [loopSteps, buildSteps, loadedPaths, ih]

theorem linkTargets_setupSteps (K : Consts) (pb pe pl cb ce cl : String) :
    linkTargets (setupSteps K pb pe pl cb ce cl) =
      (List.range (2 * K.kHardness)).map (fun i => ProgramRef.variation (i : Nat))
        ++ [ProgramRef.blur] := by
  rw [two_mul, List.range_add, List.map_append, List.map_map]
  simp [setupSteps, linkTargets_append, linkTargets_loopSteps, buildSteps, linkTargets,
    programSlot, kTypeDeformer, kTypeEraser, Function.comp_def]

theorem loadedPaths_setupSteps (K : Consts) (pb pe pl cb ce cl : String) :
    loadedPaths (setupSteps K pb pe pl cb ce cl) = [pb, pe, pl] := by
  simp [setupSteps, loadedPaths_append, loadedPaths_loopSteps, buildSteps, loadedPaths]

theorem storeLoop_getD_other (K : Consts) (code : String) (aType : Int) (hards : List Nat)
    (ps : List EasyShaderProgram) (i : Nat) (d : EasyShaderProgram)
    (hne : ∀ h ∈ hards, (programSlot K aType (h : Nat)).toNat ≠ i) :
    (storeLoop K code aType hards ps).getD i d = ps.getD i d := by
  induction hards generalizing ps with
  | nil => rfl
  | cons h rest ih =>
    have h1 := hne h (List.mem_cons_self _ _)
    rw [storeLoop, ih _ (fun x hx => hne x (List.mem_cons_of_mem _ hx))]
    simp [List.getD_eq_getElem?_getD, List.getElem?_set_ne h1]

theorem storeLoop_getD_mem (K : Consts) (code : String) (aType : Int) (hards : List Nat)
    (ps : List EasyShaderProgram) (h0 : Nat) (d : EasyShaderProgram) (hmem : h0 ∈ hards)
    (hinj : ∀ h ∈ hards, (programSlot K aType (h : Nat)).toNat =
      (programSlot K aType (h0 : Nat)).toNat → h = h0)
    (hlt : (programSlot K aType (h0 : Nat)).toNat < ps.length) :
    (storeLoop K code aType hards ps).getD (programSlot K aType (h0 : Nat)).toNat d =
      builtProgram code aType h0 := by
  induction hards generalizing ps with
  | nil => simp at hmem
  | cons h rest ih =>
    rw [storeLoop]
    by_cases hr : h0 ∈ rest
    · exact ih _ hr (fun x hx => hinj x (List.mem_cons_of_mem _ hx)) (by simpa using hlt)
    · have hh : h = h0 := by
        rcases List.mem_cons.mp hmem with h1 | h1
        · exact h1.symm
        · exact absurd h1 hr
      subst hh
      rw [storeLoop_getD_other]
      · simp [List.getD_eq_getElem?_getD, List.getElem?_set_self, hlt]
      · intro x hx hxe
        exact hr (hinj x (List.mem_cons_of_mem _ hx) hxe ▸ hx)

theorem builtResource_program (K : Consts) (hT : K.kType = 2)
    (r : Resource) (hlen : r.mProgram.length = 2 * K.kHardness) (cb ce cl : String)
    (t h : Int) (ht0 : 0 ≤ t) (ht : t < (K.kType : Int)) (hh0 : 0 ≤ h)
    (hh : h < (K.kHardness : Int)) :
    (builtResource K r cb ce cl).program K t h =
      .ok (builtProgram (if t = kTypeDeformer then cb else ce) t h) := by
  obtain ⟨n, rfl⟩ := Int.eq_ofNat_of_zero_le hh0
  have hn : n < K.kHardness := by exact_mod_cast hh
  have hmem : n ∈ List.range K.kHardness := List.mem_range.mpr hn
  have ht2 : t = 0 ∨ t = 1 := by rw [hT] at ht; omega
  have hlen1 : (storeLoop K cb kTypeDeformer (List.range K.kHardness) r.mProgram).length
      = 2 * K.kHardness := by rw [storeLoop_length, hlen]
  have hlen2 : (storeLoop K ce kTypeEraser (List.range K.kHardness)
      (storeLoop K cb kTypeDeformer (List.range K.kHardness) r.mProgram)).length
      = 2 * K.kHardness := by rw [storeLoop_length, hlen1]
  rcases ht2 with rfl | rfl
  · have hslot : programSlot K 0 (n : Nat) = ((n : Nat) : Int) := by simp [programSlot]
    have e1 := storeLoop_getD_other K ce kTypeEraser (List.range K.kHardness)
      (storeLoop K cb kTypeDeformer (List.range K.kHardness) r.mProgram) n default
      (by
        intro x _
        simp only [programSlot, kTypeEraser]
        omega)
    have e2 := storeLoop_getD_mem K cb kTypeDeformer (List.range K.kHardness) r.mProgram n
      default hmem
      (by
        intro x _
        simp only [programSlot, kTypeDeformer]
        omega)
      (by
        simp only [programSlot, kTypeDeformer]
        omega)
    have e3 : (programSlot K kTypeDeformer (n : Nat)).toNat = n := by
      simp [programSlot, kTypeDeformer]
    rw [e3] at e2
    simp only [Resource.program, Resource.element, builtResource, hslot, hlen2, hT]
    rw [if_pos (by constructor <;> omega), if_pos (by constructor <;> omega)]
    simp only [kTypeDeformer, kTypeEraser] at e1 e2
    simp only [Int.toNat_ofNat, kTypeDeformer, kTypeEraser, if_true]
    rw [e1, e2]
  · have hslot : programSlot K 1 (n : Nat) = ((K.kHardness + n : Nat) : Int) := by
      simp [programSlot]
    have e2 := storeLoop_getD_mem K ce kTypeEraser (List.range K.kHardness)
      (storeLoop K cb kTypeDeformer (List.range K.kHardness) r.mProgram) n
      default hmem
      (by
        intro x _
        simp only [programSlot, kTypeEraser]
        omega)
      (by
        rw [hlen1]
        simp only [programSlot, kTypeEraser]
        omega)
    have e3 : (programSlot K kTypeEraser (n : Nat)).toNat = K.kHardness + n := by
      simp only [programSlot, kTypeEraser]
      omega
    rw [e3] at e2
    simp only [Resource.program, Resource.element, builtResource, hslot, hlen2, hT]
    rw [if_pos (by constructor <;> omega), if_pos (by constructor <;> omega)]
    simp only [kTypeDeformer, kTypeEraser] at e2
    simp only [Int.toNat_ofNat, kTypeDeformer, kTypeEraser]
    rw [e2]
    simp

theorem find_none_iff (env : Env) (plan : List Step) :
    plan.find? env.fails = none ↔ ∀ st ∈ plan, env.fails st = false := by
  simp [List.find?_eq_none]

theorem first_failure (env : Env) (pre post : List Step) (st : Step)
    (hpre : ∀ x ∈ pre, env.fails x = false) (hst : env.fails st = true) :
    (pre ++ st :: post).find? env.fails = some st ∧
      upToFirst env.fails (pre ++ st :: post) = pre ++ [st] := by
  induction pre with
  | nil => simp [List.find?, upToFirst, hst]
  | cons x xs ih =>
    have hx := hpre x (List.mem_cons_self _ _)
    have := ih (fun y hy => hpre y (List.mem_cons_of_mem _ hy))
    simp [List.find?, upToFirst, hx, this.1, this.2]

theorem fatalOf_of_fails (env : Env) (st : Step) (h : env.fails st = true) :
    ∃ a b, fatalOf st = .fatalError a b := by
  cases st <;> simp [Env.fails, fatalOf] at h ⊢

/-- C1: with `kType = 2`, `kHardness > 0` and `kVariation = kType * kHardness`, for every
key `(t, h)` in range the slot `t * kHardness + h` lies in `[0, kVariation)`, two keys in
range share a slot only when they are equal, and when every step of `setup` succeeds
`setup` returns a pool whose `program(t, h)` is the linked program built from the source of
type `t` with `HARDNESS` set to `h` and the varyings of type `t`; the link steps of `setup`
are one per slot `0 .. kVariation - 1`, in order, followed by the one of the blur program. -/
theorem program_slot_after_setup (K : Consts) (env : Env) (r : Resource)
    (pb pe pl cb ce cl : String) (tr : List Step) (t h t2 h2 : Int)
    (hT : K.kType = 2) (_hH : 0 < K.kHardness) (hV : K.kVariation = K.kType * K.kHardness)
    (hlen : r.mProgram.length = K.kVariation)
    (hb : env.readFile pb = some cb) (he : env.readFile pe = some ce)
    (hl : env.readFile pl = some cl)
    (hok : ∀ st ∈ setupSteps K pb pe pl cb ce cl, env.fails st = false)
    (hclean : ∀ x, env.glError x = false)
    (ht0 : 0 ≤ t) (ht : t < (K.kType : Int)) (hh0 : 0 ≤ h) (hh : h < (K.kHardness : Int))
    (ht20 : 0 ≤ t2) (ht2 : t2 < (K.kType : Int)) (hh20 : 0 ≤ h2)
    (hh2 : h2 < (K.kHardness : Int)) :
    (0 ≤ programSlot K t h ∧ programSlot K t h < (K.kVariation : Int)) ∧
    (programSlot K t h = programSlot K t2 h2 ↔ t = t2 ∧ h = h2) ∧
    (∃ r2 : Resource,
      Resource.setup env K r pb pe pl tr =
        { trace := tr ++ setupSteps K pb pe pl cb ce cl, result := .ok r2 } ∧
      r2.program K t h =
        .ok { vertexSource := some { text := if t = kTypeDeformer then cb else ce,
                                     variation := [("HARDNESS", toString h)] },
              feedbackVaryings := shaderVaryings t,
              linked := true } ∧
      r2.blurProgram =
        { vertexSource := some { text := cl, variation := [] },
          feedbackVaryings := ["outPosition"],
          linked := true }) ∧
    linkTargets (setupSteps K pb pe pl cb ce cl) =
      (List.range K.kVariation).map (fun i => ProgramRef.variation (i : Nat))
        ++ [ProgramRef.blur] := by
  have hV2 : K.kVariation = 2 * K.kHardness := by rw [hV, hT]
  have hlen2 : r.mProgram.length = 2 * K.kHardness := by rw [hlen, hV2]
  have htc : t = 0 ∨ t = 1 := by rw [hT] at ht; omega
  have ht2c : t2 = 0 ∨ t2 = 1 := by rw [hT] at ht2; omega
  refine ⟨?_, ?_, ?_, ?_⟩
  · rcases htc with rfl | rfl <;> simp only [programSlot, hV2] <;> push_cast <;> omega
  · constructor
    · intro hs
      rcases htc with rfl | rfl <;> rcases ht2c with rfl | rfl <;>
        simp only [programSlot] at hs <;> constructor <;> omega
    · rintro ⟨rfl, rfl⟩
      rfl
  · refine ⟨builtResource K r cb ce cl, ?_, ?_, rfl⟩
    · have h1 := setup_outcome env hclean K r (by omega) pb pe pl tr
      simp only [hb, he, hl, Option.getD_some] at h1
      rw [h1, planOutcome_of_find_none _ _ _ _ ((find_none_iff env _).mpr hok)]
    · exact builtResource_program K hT r hlen2 cb ce cl t h ht0 ht hh0 hh
  · rw [hV2]
    exact linkTargets_setupSteps K pb pe pl cb ce cl

/-- Witness of C1 at the example constants and environment, for the keys
`(Eraser, 2)` and `(Deformer, 1)`. -/
theorem program_slot_after_setup_witness :
    (exampleConsts.kType = 2 ∧ 0 < exampleConsts.kHardness ∧
      exampleConsts.kVariation = exampleConsts.kType * exampleConsts.kHardness ∧
      examplePool.mProgram.length = exampleConsts.kVariation ∧
      exampleEnv.readFile "brush" = some "brush" ∧
      exampleEnv.readFile "eraser" = some "eraser" ∧
      exampleEnv.readFile "blur" = some "blur" ∧
      (∀ st ∈ setupSteps exampleConsts "brush" "eraser" "blur" "brush" "eraser" "blur",
        exampleEnv.fails st = false) ∧
      (∀ x, exampleEnv.glError x = false)) ∧
    ((0 ≤ programSlot exampleConsts 1 2 ∧ programSlot exampleConsts 1 2 < 6) ∧
    (programSlot exampleConsts 1 2 = programSlot exampleConsts 0 1 ↔
      (1 : Int) = 0 ∧ (2 : Int) = 1) ∧
    (∃ r2 : Resource,
      Resource.setup exampleEnv exampleConsts examplePool "brush" "eraser" "blur" [] =
        { trace := [] ++ setupSteps exampleConsts "brush" "eraser" "blur" "brush" "eraser" "blur",
          result := .ok r2 } ∧
      r2.program exampleConsts 1 2 =
        .ok { vertexSource := some { text := "eraser", variation := [("HARDNESS", "2")] },
              feedbackVaryings := ["outPosition"],
              linked := true } ∧
      r2.blurProgram =
        { vertexSource := some { text := "blur", variation := [] },
          feedbackVaryings := ["outPosition"],
          linked := true }) ∧
    linkTargets (setupSteps exampleConsts "brush" "eraser" "blur" "brush" "eraser" "blur") =
      [.variation 0, .variation 1, .variation 2, .variation 3, .variation 4, .variation 5,
       .blur]) :=
  ⟨⟨rfl, by decide, rfl, rfl, rfl, rfl, rfl, by intro st _; cases st <;> rfl, fun _ => rfl⟩,
    program_slot_after_setup exampleConsts exampleEnv examplePool "brush" "eraser" "blur"
      "brush" "eraser" "blur" [] 1 2 0 1 rfl (by decide) rfl rfl rfl rfl rfl
      (by intro st _; cases st <;> rfl) (fun _ => rfl)
      (by decide) (by decide) (by decide) (by decide) (by decide) (by decide) (by decide)
      (by decide)⟩

/-- C2: at the key `(Eraser, -1)` with `kHardness = 3` the assertion of
`Resource::program` passes and the call returns `mProgram[2]`, the Deformer program of
hardness 2. -/
theorem program_negative_hardness_returns_slot :
    exampleBuiltPool.program exampleConsts kTypeEraser (-1) =
      .ok (builtProgram "brush" kTypeDeformer 2) ∧
    exampleBuiltPool.program exampleConsts kTypeEraser (-1) =
      exampleBuiltPool.program exampleConsts kTypeDeformer 2 := by
  constructor <;> rfl

/-- C8: with the GL error flag clear, `setup` completes normally exactly when the three
loads and the resolve, compile and link of each of the `2 * kHardness + 1` builds succeed;
when a step fails, the trace of `setup` ends with the first failing step and the result is
the fatal error of that step; and a pool is returned only with the whole plan performed and
every program of every key, and the blur program, linked. -/
theorem setup_completes_iff_all_succeed (env : Env) (K : Consts) (r : Resource)
    (pb pe pl : String) (tr : List Step)
    (hclean : ∀ x, env.glError x = false) (hT : K.kType = 2)
    (hV : K.kVariation = K.kType * K.kHardness) (hlen : r.mProgram.length = K.kVariation) :
    (loadedPaths (env.setupPlan K pb pe pl) = [pb, pe, pl] ∧
      (linkTargets (env.setupPlan K pb pe pl)).length = 2 * K.kHardness + 1) ∧
    ((∃ r2, (Resource.setup env K r pb pe pl tr).result = .ok r2) ↔
      ∀ st ∈ env.setupPlan K pb pe pl, env.fails st = false) ∧
    (∀ pre st post, env.setupPlan K pb pe pl = pre ++ st :: post →
      (∀ x ∈ pre, env.fails x = false) → env.fails st = true →
      (Resource.setup env K r pb pe pl tr).trace = tr ++ pre ++ [st] ∧
      (Resource.setup env K r pb pe pl tr).result = .error (fatalOf st) ∧
      ∃ a b, fatalOf st = Failure.fatalError a b) ∧
    (∀ r2, (Resource.setup env K r pb pe pl tr).result = .ok r2 →
      (Resource.setup env K r pb pe pl tr).trace = tr ++ env.setupPlan K pb pe pl ∧
      r2.blurProgram.linked = true ∧
      ∀ t h : Int, 0 ≤ t → t < (K.kType : Int) → 0 ≤ h → h < (K.kHardness : Int) →
        ∃ p, r2.program K t h = .ok p ∧ p.linked = true) := by
  have hV2 : K.kVariation = 2 * K.kHardness := by rw [hV, hT]
  have hlen2 : r.mProgram.length = 2 * K.kHardness := by rw [hlen, hV2]
  have hout := setup_outcome env hclean K r (by omega) pb pe pl tr
  refine ⟨⟨?_, ?_⟩, ?_, ?_, ?_⟩
  · exact loadedPaths_setupSteps K pb pe pl _ _ _
  · simp [Env.setupPlan, linkTargets_setupSteps]
  · rw [hout, ← find_none_iff]
    simp only [planOutcome, Env.setupPlan]
    cases hf : (setupSteps K pb pe pl ((env.readFile pb).getD "") ((env.readFile pe).getD "")
        ((env.readFile pl).getD "")).find? env.fails <;> simp
  · intro pre st post hplan hpre hst
    have hff := first_failure env pre post st hpre hst
    unfold Env.setupPlan at hplan
    rw [hout, planOutcome_of_find_some env tr _ _ st (by rw [hplan]; exact hff.1), hplan, hff.2]
    exact ⟨by simp, rfl, fatalOf_of_fails env st hst⟩
  · intro r2 hr2
    rw [hout] at hr2 ⊢
    unfold Env.setupPlan
    cases hf : (setupSteps K pb pe pl ((env.readFile pb).getD "") ((env.readFile pe).getD "")
        ((env.readFile pl).getD "")).find? env.fails with
    | some st => simp [planOutcome, hf] at hr2
    | none =>
      rw [planOutcome_of_find_none _ _ _ _ hf] at hr2 ⊢
      simp only [Except.ok.injEq] at hr2
      subst hr2
      refine ⟨rfl, rfl, ?_⟩
      intro t h ht0 ht hh0 hh
      exact ⟨_, builtResource_program K hT r hlen2 _ _ _ t h ht0 ht hh0 hh, rfl⟩

/-! ## Task: lemmas and theorems -/

theorem resetDst_ok (s : Task) (g : List GLCmd) (n : Int) (hn : 0 < n) :
    Task.resetDst n s g =
      if s.mDstBufferCount < n then
        .ok ({ s with
                mVtxCount := n
                mDstBufferCount := n
                mDstMesh := some n
                mOutMesh := BufferObject.resetData sizeofVector3 n
                mOutWeight := BufferObject.resetData sizeofGLfloat n },
             g ++ [.resetData .outMesh sizeofVector3 n, .resetData .outWeight sizeofGLfloat n])
      else
        .ok ({ s with mVtxCount := n }, g) := by
  simp only [Task.resetDst, gt_iff_lt, hn, if_true]

theorem runOps_resetDst (d : Driver) (K : Consts) (res : Resource) (ns : List Int)
    (hns : ∀ n ∈ ns, 0 < n) (s : Task) (g : List GLCmd) :
    ∃ s2 g2, runOps d K res (ns.map Op.resetDst) (s, g) = .ok (s2, g2) ∧
      s2.mDstBufferCount = ns.foldl max s.mDstBufferCount := by
  induction ns generalizing s g with
  | nil => exact ⟨s, g, rfl, rfl⟩
  | cons n rest ih =>
    have hn := hns n (List.mem_cons_self _ _)
    have hrest := fun x hx => hns x (List.mem_cons_of_mem _ hx)
    simp only [List.map_cons, runOps, Op.run, resetDst_ok _ _ _ hn, List.foldl_cons]
    by_cases hc : s.mDstBufferCount < n
    · simp only [hc, if_true]
      obtain ⟨s2, g2, h1, h2⟩ := ih hrest _ _
      refine ⟨s2, g2, h1, ?_⟩
      rw [h2]
      simp only [max_eq_right (le_of_lt hc)]
    · simp only [hc, if_false]
      obtain ⟨s2, g2, h1, h2⟩ := ih hrest { s with mVtxCount := n } g
      refine ⟨s2, g2, h1, ?_⟩
      rw [h2]
      simp only [max_eq_left (not_lt.mp hc)]

theorem foldl_max_ge (ns : List Int) (c : Int) :
    c ≤ ns.foldl max c ∧ (∀ n ∈ ns, n ≤ ns.foldl max c) ∧
      (ns.foldl max c = c ∨ ns.foldl max c ∈ ns) := by
  induction ns generalizing c with
  | nil => simp
  | cons n rest ih =>
    obtain ⟨h1, h2, h3⟩ := ih (max c n)
    simp only [List.foldl_cons, List.mem_cons]
    refine ⟨le_trans (le_max_left _ _) h1, ?_, ?_⟩
    · intro x hx
      rcases hx with rfl | hx
      · exact le_trans (le_max_right _ _) h1
      · exact h2 x hx
    · rcases h3 with h3 | h3
      · rcases max_choice c n with hm | hm
        · left; rw [h3, hm]
        · right; left; rw [h3, hm]
      · right; right; exact h3

theorem resetDst_spec (s : Task) (g : List GLCmd) (n : Int) (hn : 0 < n) :
    ∃ s2 g2, Task.resetDst n s g = .ok (s2, g2) ∧
      s2.mVtxCount = n ∧
      s2.mDstBufferCount = max s.mDstBufferCount n ∧
      (s.mDstBufferCount < n →
        s2.mDstMesh = some n ∧
        s2.mOutMesh = BufferObject.resetData sizeofVector3 n ∧
        s2.mOutWeight = BufferObject.resetData sizeofGLfloat n ∧
        g2 = g ++ [.resetData .outMesh sizeofVector3 n, .resetData .outWeight sizeofGLfloat n]) ∧
      (n ≤ s.mDstBufferCount →
        s2.mDstMesh = s.mDstMesh ∧ s2.mOutMesh = s.mOutMesh ∧
        s2.mOutWeight = s.mOutWeight ∧ g2 = g) := by
  rw [resetDst_ok s g n hn]
  by_cases hc : s.mDstBufferCount < n
  · rw [if_pos hc]
    exact ⟨_, _, rfl, rfl, (max_eq_right (le_of_lt hc)).symm, fun _ => ⟨rfl, rfl, rfl, rfl⟩,
      fun h => absurd hc (not_lt.mpr h)⟩
  · rw [if_neg hc]
    exact ⟨_, _, rfl, rfl, (max_eq_left (not_lt.mp hc)).symm, fun h => absurd h hc,
      fun _ => ⟨rfl, rfl, rfl, rfl⟩⟩

/-- C3: for `n > 0`, `resetDst(n)` returns with the vertex count `n` and the capacity
`max(old capacity, n)`; when `n` exceeds the old capacity the host array and the two output
buffers are reallocated with `n` elements, otherwise they and the GL history stay as they
were; a sequence of `resetDst` calls returns with the capacity at least the old one, at
least each `n` of the sequence, and equal to the old one or to an `n` of the sequence, so
from a new task it is the largest `n`. -/
theorem resetDst_capacity (d : Driver) (K : Consts) (res : Resource) (s : Task)
    (g : List GLCmd) (n : Int) (ns : List Int) (param0 : FFDParam) (valid0 : Bool)
    (hn : 0 < n) (hns : ∀ m ∈ ns, 0 < m) :
    (∃ s2 g2, Task.resetDst n s g = .ok (s2, g2) ∧
      s2.mVtxCount = n ∧
      s2.mDstBufferCount = max s.mDstBufferCount n ∧
      (s.mDstBufferCount < n →
        s2.mDstMesh = some n ∧
        s2.mOutMesh = BufferObject.resetData sizeofVector3 n ∧
        s2.mOutWeight = BufferObject.resetData sizeofGLfloat n ∧
        g2 = g ++ [.resetData .outMesh sizeofVector3 n, .resetData .outWeight sizeofGLfloat n]) ∧
      (n ≤ s.mDstBufferCount →
        s2.mDstMesh = s.mDstMesh ∧ s2.mOutMesh = s.mOutMesh ∧
        s2.mOutWeight = s.mOutWeight ∧ g2 = g)) ∧
    (∃ s2 g2, runOps d K res (ns.map Op.resetDst) (s, g) = .ok (s2, g2) ∧
      s.mDstBufferCount ≤ s2.mDstBufferCount ∧
      (∀ m ∈ ns, m ≤ s2.mDstBufferCount) ∧
      (s2.mDstBufferCount = s.mDstBufferCount ∨ s2.mDstBufferCount ∈ ns)) ∧
    (∃ s2 g2, runOps d K res (ns.map Op.resetDst) (Task.new param0 valid0, g) = .ok (s2, g2) ∧
      (∀ m ∈ ns, m ≤ s2.mDstBufferCount) ∧
      (ns ≠ [] → s2.mDstBufferCount ∈ ns)) := by
  refine ⟨?_, ?_, ?_⟩
  · exact resetDst_spec s g n hn
  · obtain ⟨s2, g2, h1, h2⟩ := runOps_resetDst d K res ns hns s g
    obtain ⟨a, b, c⟩ := foldl_max_ge ns s.mDstBufferCount
    exact ⟨s2, g2, h1, h2 ▸ a, fun m hm => h2 ▸ b m hm, h2 ▸ c⟩
  · obtain ⟨s2, g2, h1, h2⟩ := runOps_resetDst d K res ns hns (Task.new param0 valid0) g
    obtain ⟨_, b, c⟩ := foldl_max_ge ns (Task.new param0 valid0).mDstBufferCount
    refine ⟨s2, g2, h1, fun m hm => h2 ▸ b m hm, ?_⟩
    intro hne
    rcases c with c | c
    · exfalso
      cases ns with
      | nil => exact hne rfl
      | cons m rest =>
        have hm := hns m (List.mem_cons_self _ _)
        have := b m (List.mem_cons_self _ _)
        rw [c] at this
        simp only [Task.new] at this
        omega
    · exact h2 ▸ c

theorem updateTextures_ok (blocks : List ArrayedConnection) (idxs : List Nat)
    (texs : List BlurTexture) (g : List GLCmd)
    (h : ∀ i ∈ idxs, i < blocks.length ∧ i < texs.length) :
    ∃ texs2 g2, updateTextures blocks idxs texs g = .ok (texs2, g2) ∧
      texs2.length = texs.length := by
  induction idxs generalizing texs g with
  | nil => exact ⟨texs, g, rfl, rfl⟩
  | cons i rest ih =>
    obtain ⟨hb, ht⟩ := h i (List.mem_cons_self _ _)
    have e1 : blocks.get? i = some blocks[i] := by
      rw [List.get?_eq_getElem?]; exact List.getElem?_eq_getElem hb
    have e2 : texs.get? i = some texs[i] := by
      rw [List.get?_eq_getElem?]; exact List.getElem?_eq_getElem ht
    simp only [updateTextures, e1, e2]
    obtain ⟨t2, g2, h1, h2⟩ := ih
      (texs.set i { texs[i] with data := blocks[i].positions,
                                 dataCount := blocks[i].positionCount })
      (g ++ [.textureUpdate i blocks[i].positions 0 blocks[i].positionCount])
      (by
        intro j hj
        have := h j (List.mem_cons_of_mem _ hj)
        simpa using this)
    exact ⟨t2, g2, h1, by rw [h2, List.length_set]⟩

theorem writeSrc_ok (K : Consts) (e : Nat) (m : Ptr) (o : LayerMesh) (p : FFDParam)
    (s : Task) (g : List GLCmd) (hm : m.isSome = true) (hv : 0 < o.vertexCount) :
    ∃ s2 g2, Task.writeSrc K e m o p s g = .ok (s2, g2) ∧
      s2.mSrcExpans = some e ∧ s2.mSrcMesh = { array := m, count := o.vertexCount } ∧
      s2.mParam = p ∧ s2.mOriginMesh = o.positions ∧
      s2.mUseBlur = decide (p.type = kTypeDeformer ∧ p.blur > 0) ∧
      s2.mVtxCount = s.mVtxCount ∧ s2.mDstBufferCount = s.mDstBufferCount ∧
      s2.mDstMesh = s.mDstMesh ∧ s2.mOutMesh = s.mOutMesh ∧ s2.mOutWeight = s.mOutWeight ∧
      s2.mBrushCenter = s.mBrushCenter ∧ s2.mBrushVel = s.mBrushVel ∧
      (s2.mUseBlur = true →
        s2.mArrayedConnectionList = o.resetArrayedConnection m ∧
        s2.mSrcBlurPositions.length = s2.mArrayedConnectionList.blocks.length) ∧
      (s2.mUseBlur = false →
        s2.mArrayedConnectionList = s.mArrayedConnectionList ∧
        s2.mSrcBlurPositions = s.mSrcBlurPositions ∧ g2 = g) := by
  simp only [Task.writeSrc, hm, if_true, gt_iff_lt, hv]
  by_cases hb : decide (p.type = kTypeDeformer ∧ 0 < p.blur) = true
  · rw [if_pos hb]
    obtain ⟨t2, g2, h1, h2⟩ := updateTextures_ok (o.resetArrayedConnection m).blocks
      (List.range (o.resetArrayedConnection m).blocks.length)
      (List.replicate (o.resetArrayedConnection m).blocks.length
        { width := K.kMaxCount, data := none, dataCount := 0 })
      (g ++ [.resetData .workInMesh sizeofVector3 o.vertexCount,
             .resetData .workInWeight sizeofGLfloat o.vertexCount]
         ++ [.textureReset (o.resetArrayedConnection m).blocks.length K.kMaxCount])
      (by
        intro i hi
        simpa using List.mem_range.mp hi)
    simp only [h1]
    refine ⟨_, _, rfl, rfl, rfl, rfl, rfl, rfl, rfl, rfl, rfl, rfl, rfl, rfl, rfl, ?_, ?_⟩
    · intro _
      exact ⟨rfl, by simpa using h2⟩
    · intro hf
      simp only [hb] at hf
      exact absurd hf (by simp)
  · rw [if_neg hb]
    refine ⟨_, _, rfl, rfl, rfl, rfl, rfl, rfl, rfl, rfl, rfl, rfl, rfl, rfl, rfl, ?_, ?_⟩
    · intro ht
      exact absurd ht hb
    · intro _
      exact ⟨rfl, rfl, rfl⟩

theorem writeSrc_pre (K : Consts) (e : Nat) (m : Ptr) (o : LayerMesh) (p : FFDParam)
    (s : Task) (g : List GLCmd) (st : Task × List GLCmd)
    (h : Task.writeSrc K e m o p s g = .ok st) : m.isSome = true ∧ 0 < o.vertexCount := by
  by_cases hm : m.isSome = true
  · by_cases hv : 0 < o.vertexCount
    · exact ⟨hm, hv⟩
    · simp [Task.writeSrc, hm, hv] at h
  · simp [Task.writeSrc, hm] at h

theorem resetDst_pre (n : Int) (s : Task) (g : List GLCmd) (st : Task × List GLCmd)
    (h : Task.resetDst n s g = .ok st) : 0 < n := by
  by_cases hn : 0 < n
  · exact hn
  · simp [Task.resetDst, hn] at h

theorem blurLoop_ok (K : Consts) (s : Task) (blocks : List ArrayedConnection) (i : Nat)
    (g : List GLCmd) (h : i + blocks.length ≤ s.mSrcBlurPositions.length) :
    blurLoop K s blocks i g = .ok (g ++ blurLoopCalls K s i blocks) := by
  induction blocks generalizing i g with
  | nil => simp [blurLoop, blurLoopCalls]
  | cons b rest ih =>
    have hlen : i + 1 + rest.length ≤ s.mSrcBlurPositions.length := by
      simp only [List.length_cons] at h; omega
    have hi : i < s.mSrcBlurPositions.length := by
      simp only [List.length_cons] at h; omega
    have e1 : s.mSrcBlurPositions.get? i = some s.mSrcBlurPositions[i] := by
      rw [List.get?_eq_getElem?]; exact List.getElem?_eq_getElem hi
    simp only [blurLoop, blurLoopCalls, List.enumFrom_cons, List.flatMap_cons, e1]
    by_cases hc : blurCount b > 0
    · rw [if_pos hc, if_pos hc, ih _ _ hlen, blurLoopCalls, List.append_assoc]
    · rw [if_neg hc, if_neg hc, ih _ _ hlen, blurLoopCalls, List.nil_append]

theorem requestBlur_eq (d : Driver) (K : Consts) (s : Task) (g : List GLCmd)
    (h : s.mArrayedConnectionList.blocks.length ≤ s.mSrcBlurPositions.length) :
    Task.requestBlur d K s g =
      if d.hasError (g ++ blurCalls K s) then
        .error (.assertion "glGetError() == GL_NO_ERROR")
      else
        .ok (g ++ blurCalls K s) := by
  have hl := blurLoop_ok K s s.mArrayedConnectionList.blocks 0 (g ++ blurPrologue)
    (by omega)
  simp only [Task.requestBlur, hl, blurCalls, List.append_assoc]

theorem onRequested_eq (d : Driver) (K : Consts) (res : Resource) (s : Task) (g : List GLCmd)
    (h1 : s.mSrcExpans.isSome = true) (h2 : s.mSrcMesh.array.isSome = true)
    (h3 : s.mOutMesh.valid = true) (h4 : 0 < s.mParam.radius)
    (h5 : s.mSrcMesh.count ≤ s.mOutMesh.dataCount)
    (h6 : ∃ p, res.program K s.mParam.type s.mParam.hardness = .ok p)
    (h7 : s.mUseBlur = true →
      s.mArrayedConnectionList.blocks.length ≤ s.mSrcBlurPositions.length) :
    Task.onRequested d K res s g =
      if d.hasError (g ++ requestCalls K s) then
        .error (.assertion "glGetError() == GL_NO_ERROR")
      else
        .ok (g ++ requestCalls K s) := by
  obtain ⟨p, hp⟩ := h6
  simp only [Task.onRequested, h1, h2, h3, h4, h5, hp, if_true, gt_iff_lt, and_self,
    requestCalls]
  by_cases hb : s.mUseBlur = true
  · simp only [hb, if_true, requestBlur_eq d K s _ (h7 hb), List.append_assoc]
    by_cases he : d.hasError (g ++ (transformCalls s ++ (deformPass K s ++ blurCalls K s))) = true
    · simp [he]
    · simp [he]
  · simp only [hb, List.append_nil, List.append_assoc]
    simp

theorem inv_new (param0 : FFDParam) (valid0 : Bool) : (Task.new param0 valid0).Inv := by
  simp [Task.Inv, Task.new, Task.hostCount]

theorem onRequested_state (d : Driver) (K : Consts) (res : Resource) (op : Op)
    (st st2 : Task × List GLCmd) (h : op.run d K res st = .ok st2)
    (hop : op = .onRequested ∨ op = .onFinished) : st2.1 = st.1 := by
  rcases hop with rfl | rfl
  · simp only [Op.run] at h
    cases hr : Task.onRequested d K res st.1 st.2 with
    | error e => simp [hr] at h
    | ok g => simp only [hr, Except.ok.injEq] at h; rw [← h]
  · simp only [Op.run] at h
    cases hr : Task.onFinished d st.1 st.2 with
    | error e => simp [hr] at h
    | ok g => simp only [hr, Except.ok.injEq] at h; rw [← h]

theorem inv_step (d : Driver) (K : Consts) (res : Resource) (op : Op)
    (st st2 : Task × List GLCmd) (h : op.run d K res st = .ok st2) (hinv : st.1.Inv) :
    st2.1.Inv ∧ st.1.mDstBufferCount ≤ st2.1.mDstBufferCount ∧
      (op.isResetDst = true → 0 < st2.1.mDstBufferCount) := by
  obtain ⟨i1, i2, i3, i4, i5, i6, i7⟩ := hinv
  cases op with
  | resetDst n =>
    have hn := resetDst_pre n st.1 st.2 st2 h
    simp only [Op.run, resetDst_ok _ _ _ hn] at h
    by_cases hc : st.1.mDstBufferCount < n
    · rw [if_pos hc, Except.ok.injEq] at h
      subst h
      refine ⟨⟨?_, ?_, ?_, ?_, ?_, ?_, ?_⟩, ?_, ?_⟩ <;>
        simp [BufferObject.resetData, Task.hostCount, i7] <;> omega
    · rw [if_neg hc, Except.ok.injEq] at h
      subst h
      have hc2 : n ≤ st.1.mDstBufferCount := not_lt.mp hc
      refine ⟨⟨le_of_lt hn, hc2, i3, i4, i5, i6, i7⟩, le_refl _, fun _ => ?_⟩
      exact lt_of_lt_of_le hn hc2
  | writeSrc e m o p =>
    obtain ⟨hm, hv⟩ := writeSrc_pre K e m o p st.1 st.2 st2 h
    obtain ⟨s2, g2, w0, _, _, _, _, _, w1, w2, w3, w4, w5, _, _, w6, w7⟩ :=
      writeSrc_ok K e m o p st.1 st.2 hm hv
    simp only [Op.run, w0, Except.ok.injEq] at h
    subst h
    simp only [Task.Inv, Task.hostCount, w1, w2, w3, w4, w5, Op.isResetDst]
    refine ⟨⟨i1, i2, i3, i4, i5, i6, ?_⟩, le_refl _, by simp⟩
    cases hb : s2.mUseBlur with
    | true => exact (w6 hb).2
    | false => rw [(w7 hb).1, (w7 hb).2.1]; exact i7
  | setBrush w wi c v =>
    simp only [Op.run, Except.ok.injEq] at h
    subst h
    exact ⟨⟨i1, i2, i3, i4, i5, i6, i7⟩, le_refl _, by simp [Op.isResetDst]⟩
  | onRequested =>
    rw [onRequested_state d K res _ st st2 h (Or.inl rfl)]
    exact ⟨⟨i1, i2, i3, i4, i5, i6, i7⟩, le_refl _, by simp [Op.isResetDst]⟩
  | onFinished =>
    rw [onRequested_state d K res _ st st2 h (Or.inr rfl)]
    exact ⟨⟨i1, i2, i3, i4, i5, i6, i7⟩, le_refl _, by simp [Op.isResetDst]⟩

theorem inv_run (d : Driver) (K : Consts) (res : Resource) (ops : List Op)
    (st st2 : Task × List GLCmd) (h : runOps d K res ops st = .ok st2) (hinv : st.1.Inv) :
    st2.1.Inv ∧ st.1.mDstBufferCount ≤ st2.1.mDstBufferCount ∧
      ((∃ op ∈ ops, op.isResetDst = true) → 0 < st2.1.mDstBufferCount) := by
  induction ops generalizing st with
  | nil =>
    simp only [runOps, Except.ok.injEq] at h
    subst h
    exact ⟨hinv, le_refl _, by simp⟩
  | cons op rest ih =>
    simp only [runOps] at h
    cases hr : op.run d K res st with
    | error e => simp [hr] at h
    | ok st1 =>
      simp only [hr] at h
      obtain ⟨a1, a2, a3⟩ := inv_step d K res op st st1 hr hinv
      obtain ⟨b1, b2, b3⟩ := ih st1 h a1
      refine ⟨b1, le_trans a2 b2, ?_⟩
      rintro ⟨x, hx, hxr⟩
      rcases List.mem_cons.mp hx with rfl | hx
      · exact lt_of_lt_of_le (a3 hxr) b2
      · exact b3 ⟨x, hx, hxr⟩

/-- C9: in every state reached from a new task by a sequence of calls that all return,
`mVtxCount <= mDstBufferCount`; once the sequence holds a `resetDst`, the host array, the
output position buffer and the output weight buffer are allocated with exactly
`mDstBufferCount` elements; and the readback of `onFinished`, `sizeof(Vector3) * mVtxCount`
bytes from offset 0, stays within the bytes of the output position buffer and within the
host array. -/
theorem reachable_counts_within_capacity (d : Driver) (K : Consts) (res : Resource)
    (ops : List Op) (param0 : FFDParam) (valid0 : Bool) (g0 g : List GLCmd) (s : Task)
    (hrun : runOps d K res ops (Task.new param0 valid0, g0) = .ok (s, g)) :
    s.mVtxCount ≤ s.mDstBufferCount ∧
    ((∃ op ∈ ops, op.isResetDst = true) →
      s.mDstMesh = some s.mDstBufferCount ∧
      s.mOutMesh = BufferObject.resetData sizeofVector3 s.mDstBufferCount ∧
      s.mOutWeight = BufferObject.resetData sizeofGLfloat s.mDstBufferCount) ∧
    (s.hostCount = s.mDstBufferCount ∧ s.mOutMesh.dataCount = s.mDstBufferCount ∧
      s.mOutWeight.dataCount = s.mDstBufferCount) ∧
    (readbackSizes (readbackCalls s) = [sizeofVector3 * s.mVtxCount] ∧
      0 ≤ sizeofVector3 * s.mVtxCount ∧
      sizeofVector3 * s.mVtxCount ≤ s.mOutMesh.byteSize ∧
      sizeofVector3 * s.mVtxCount ≤ sizeofVector3 * s.hostCount) := by
  obtain ⟨⟨i1, i2, i3, i4, i5, i6, _⟩, _, hpos⟩ :=
    inv_run d K res ops _ _ hrun (inv_new param0 valid0)
  simp only at i1 i2 i3 i4 i5 i6 hpos
  refine ⟨i2, fun h => i6 (hpos h), ⟨i5, i3, i4⟩, rfl, ?_, ?_, ?_⟩
  · simp only [sizeofVector3]; omega
  · by_cases hc : 0 < s.mDstBufferCount
    · rw [(i6 hc).2.1]
      simp only [BufferObject.byteSize, BufferObject.resetData, sizeofVector3]
      omega
    · have h0 : s.mVtxCount = 0 := by omega
      have h1 : s.mOutMesh.dataCount = 0 := by omega
      simp [BufferObject.byteSize, h0, h1]
  · rw [i5]
    simp only [sizeofVector3]; omega

theorem drawsOf_append (b : Bound) (l1 l2 : List GLCmd) :
    drawsOf b (l1 ++ l2) = drawsOf b l1 ++ drawsOf (boundAfter b l1) l2 := by
  induction l1 generalizing b with
  | nil => rfl
  | cons c rest ih =>
    cases c <;> simp [drawsOf, boundAfter, Bound.apply, ih]

theorem boundAfter_append (b : Bound) (l1 l2 : List GLCmd) :
    boundAfter b (l1 ++ l2) = boundAfter (boundAfter b l1) l2 := by
  simp [boundAfter, List.foldl_append]

theorem wrapInt32_eq (x : Int) (h0 : -2147483648 ≤ x) (h1 : x ≤ 2147483647) :
    wrapInt32 x = x := by
  unfold wrapInt32
  omega

theorem blurLoop_skips_overflowing_block (K : Consts) (s : Task) (g : List GLCmd) :
    blurCount { vertexRange := { min := 0, max := 2147483647 }, positions := none,
                positionCount := 0 } = -2147483648 ∧
    blurLoop K s [{ vertexRange := { min := 0, max := 2147483647 }, positions := none,
                    positionCount := 0 }] 0 g = .ok g := by
  constructor
  · decide
  · simp [blurLoop, blurCount, Range.diff, wrapInt32]

theorem blurCount_eq (block : ArrayedConnection) (h : IntCount block) :
    blurCount block = block.vertexRange.max - block.vertexRange.min + 1 := by
  obtain ⟨_, _, _, _, h5, h6⟩ := h
  have hd : block.vertexRange.diff = block.vertexRange.max - block.vertexRange.min :=
    wrapInt32_eq _ h5 (by omega)
  unfold blurCount
  rw [hd]
  exact wrapInt32_eq _ (by omega) h6

theorem blurBlockCmds_eq (K : Consts) (s : Task) (k : Nat) (blk : ArrayedConnection)
    (h : IntCount blk) :
    blurBlockCmds K s k blk =
      [ .programBind .blur,
        .bindTexture (some k),
        .setAttributeBuffer "inPosition" .workInMesh 3,
        .setAttributeBuffer "inWeight" .workInWeight 1,
        .setAttributeArray "inOriginPosition" s.mOriginMesh,
        .setAttributeArray "inIndexRange" s.mArrayedConnectionList.indexRanges,
        .setUniformValue "uConnections" (.int 0),
        .setUniformValue "uConnectionCount" (.int K.kMaxCount),
        .setUniformValue "uBlurPressure" (.float s.mParam.blur),
        .bindBufferRange 0 .outMesh (12 * blk.vertexRange.min)
          (12 * (blk.vertexRange.max - blk.vertexRange.min + 1)),
        .beginTransformFeedback,
        .drawArrays blk.vertexRange.min (blk.vertexRange.max - blk.vertexRange.min + 1),
        .endTransformFeedback,
        .programRelease .blur ] := by
  have e1 : blk.vertexRange.min * 4 * 3 = 12 * blk.vertexRange.min := by omega
  have e2 : (blk.vertexRange.max - blk.vertexRange.min + 1) * 4 * 3 =
      12 * (blk.vertexRange.max - blk.vertexRange.min + 1) := by omega
  simp only [blurBlockCmds, blurCount_eq blk h, sizeofGLfloat, e1, e2]

theorem blurLoopCalls_eq (K : Consts) (s : Task) (i : Nat) (blocks : List ArrayedConnection)
    (h : ∀ blk ∈ blocks, IntCount blk) :
    blurLoopCalls K s i blocks =
      (blocks.enumFrom i).flatMap (fun kb =>
        if kb.2.vertexRange.max - kb.2.vertexRange.min + 1 > 0 then
          blurBlockCmds K s kb.1 kb.2
        else []) := by
  induction blocks generalizing i with
  | nil => simp [blurLoopCalls]
  | cons blk rest ih =>
    have hrest := ih (i + 1) (fun x hx => h x (List.mem_cons_of_mem _ hx))
    simp only [blurLoopCalls, List.enumFrom_cons, List.flatMap_cons] at hrest ⊢
    rw [hrest, blurCount_eq blk (h blk (List.mem_cons_self _ _))]

theorem drawsOf_blurBlock (K : Consts) (s : Task) (b : Bound) (k : Nat)
    (block : ArrayedConnection) (h : IntCount block) :
    drawsOf b (blurBlockCmds K s k block) = [blurDraw b.feedback1 k block] ∧
      (boundAfter b (blurBlockCmds K s k block)).feedback1 = b.feedback1 := by
  rw [blurBlockCmds_eq K s k block h]
  simp [drawsOf, Bound.apply, blurDraw, boundAfter]

theorem drawsOf_blurLoop (K : Consts) (s : Task) (blocks : List ArrayedConnection) (i : Nat)
    (b : Bound) (h : ∀ blk ∈ blocks, IntCount blk) :
    drawsOf b (blurLoopCalls K s i blocks) = blurDraws b.feedback1 i blocks ∧
      (boundAfter b (blurLoopCalls K s i blocks)).feedback1 = b.feedback1 := by
  induction blocks generalizing i b with
  | nil => simp [blurLoopCalls, blurDraws, drawsOf, boundAfter]
  | cons blk rest ih =>
    have hblk := h blk (List.mem_cons_self _ _)
    have hrest : ∀ x ∈ rest, IntCount x := fun x hx => h x (List.mem_cons_of_mem _ hx)
    have hb := drawsOf_blurBlock K s b i blk hblk
    simp only [blurLoopCalls, blurDraws, List.enumFrom_cons, List.flatMap_cons,
      List.filterMap_cons, blurCount_eq blk hblk] at ih ⊢
    by_cases hc : blk.vertexRange.max - blk.vertexRange.min + 1 > 0
    · obtain ⟨h1, h2⟩ := ih (i + 1) (boundAfter b (blurBlockCmds K s i blk)) hrest
      simp only [hc, if_true, drawsOf_append, boundAfter_append, hb.1, h1, h2, hb.2]
      simp
    · obtain ⟨h1, h2⟩ := ih (i + 1) b hrest
      simp only [hc, if_false, List.nil_append, h1, h2]
      simp

theorem drawsOf_deformPass (K : Consts) (s : Task) (b : Bound)
    (hb : b.texture = none) (hf : b.feedback1 = none) :
    drawsOf b (transformCalls s ++ deformPass K s) = [deformDraw K s] ∧
      (boundAfter b (transformCalls s ++ deformPass K s)).feedback1 =
        (deformDraw K s).bound.feedback1 := by
  by_cases ht : s.mParam.type = kTypeDeformer
  · simp [transformCalls, deformPass, deformBindings, drawsOf, Bound.apply, deformDraw,
      boundAfter, ht, hb]
  · simp [transformCalls, deformPass, deformBindings, drawsOf, Bound.apply, deformDraw,
      boundAfter, ht, hb, hf]

theorem drawsOf_requestCalls (K : Consts) (s : Task) :
    drawsOf Bound.empty (requestCalls K s) =
      deformDraw K s ::
        (if s.mUseBlur then
          drawsOf (boundAfter Bound.empty (transformCalls s ++ deformPass K s))
            (blurCalls K s)
        else []) := by
  obtain ⟨h1, _⟩ := drawsOf_deformPass K s Bound.empty rfl rfl
  by_cases hb : s.mUseBlur = true
  · simp only [requestCalls, hb, if_true]
    rw [drawsOf_append, h1]
    simp
  · simp only [requestCalls, hb]
    simpa using h1

theorem mem_blurDraws (fb1 : Option FeedbackBinding) (i : Nat) (blocks : List ArrayedConnection)
    (r : DrawRecord) :
    r ∈ blurDraws fb1 i blocks ↔
      ∃ k blk, i ≤ k ∧ blocks.get? (k - i) = some blk ∧
        blk.vertexRange.max - blk.vertexRange.min + 1 > 0 ∧ r = blurDraw fb1 k blk := by
  simp only [blurDraws, List.mem_filterMap, Prod.exists,
    List.mk_mem_enumFrom_iff_le_and_getElem?_sub, List.get?_eq_getElem?]
  constructor
  · rintro ⟨k, blk, ⟨hk, hb⟩, hr⟩
    by_cases hc : blk.vertexRange.max - blk.vertexRange.min + 1 > 0
    · rw [if_pos hc] at hr
      exact ⟨k, blk, hk, hb, hc, (Option.some.inj hr).symm⟩
    · rw [if_neg hc] at hr
      exact absurd hr (by simp)
  · rintro ⟨k, blk, hk, hb, hc, rfl⟩
    exact ⟨k, blk, ⟨hk, hb⟩, by rw [if_pos hc]⟩

theorem blurDraws_cons (fb1 : Option FeedbackBinding) (i : Nat) (blk : ArrayedConnection)
    (rest : List ArrayedConnection) :
    blurDraws fb1 i (blk :: rest) =
      (if blk.vertexRange.max - blk.vertexRange.min + 1 > 0 then [blurDraw fb1 i blk] else [])
        ++ blurDraws fb1 (i + 1) rest := by
  by_cases hc : blk.vertexRange.max - blk.vertexRange.min + 1 > 0 <;>
    simp [blurDraws, List.enumFrom_cons, List.filterMap_cons, hc]

theorem blurDraws_disjoint (fb1 : Option FeedbackBinding) (i : Nat)
    (blocks : List ArrayedConnection)
    (hdisj : blocks.Pairwise (fun a c =>
      a.vertexRange.max < c.vertexRange.min ∨ c.vertexRange.max < a.vertexRange.min)) :
    (blurDraws fb1 i blocks).Pairwise (fun r1 r2 =>
      ∀ o1 z1 o2 z2, r1.outMeshRange = some (o1, z1) → r2.outMeshRange = some (o2, z2) →
        o1 + z1 ≤ o2 ∨ o2 + z2 ≤ o1) := by
  induction blocks generalizing i with
  | nil => simp [blurDraws]
  | cons blk rest ih =>
    rw [blurDraws_cons]
    obtain ⟨hhead, htail⟩ := List.pairwise_cons.mp hdisj
    by_cases hc : blk.vertexRange.max - blk.vertexRange.min + 1 > 0
    · rw [if_pos hc, List.singleton_append, List.pairwise_cons]
      refine ⟨?_, ih (i + 1) htail⟩
      intro r hr o1 z1 o2 z2 h1 h2
      obtain ⟨k, b2, _, hb2, _, rfl⟩ := (mem_blurDraws fb1 (i + 1) rest r).mp hr
      have hmem : b2 ∈ rest := List.get?_mem hb2
      have hd := hhead b2 hmem
      simp only [DrawRecord.outMeshRange, blurDraw, Option.some.injEq, Prod.mk.injEq] at h1 h2
      omega
    · rw [if_neg hc, List.nil_append]
      exact ih (i + 1) htail

/-- C7: for a block list whose bounds are `int` values with `max - min + 1` formed
without overflow, `requestBlur` issues, between its prologue and epilogue, for each
position `k` of the block list the calls of the block at `k` when `max - min + 1 > 0` and
nothing otherwise; those calls bind texture `k`, bind feedback slot 0 to the bytes
`[12 * min, 12 * min + 12 * count)` of the output position buffer and draw the `count`
vertices from `min`, nothing else binding a texture or feedback target or drawing. Read as
draws: one draw per block with positive count, at the position of the block, with that
texture and that range. When the vertex ranges of the blocks are pairwise disjoint and
inside `[0, vertexCount)`, the byte ranges of the draws are pairwise disjoint and inside
the first `12 * vertexCount` bytes. -/
theorem requestBlur_draws_per_block (d : Driver) (K : Consts) (s : Task) (g : List GLCmd)
    (b : Bound) (vertexCount : Int)
    (htex : s.mArrayedConnectionList.blocks.length ≤ s.mSrcBlurPositions.length)
    (hint : ∀ blk ∈ s.mArrayedConnectionList.blocks,
      -2147483648 ≤ blk.vertexRange.min ∧ blk.vertexRange.min ≤ 2147483647 ∧
      -2147483648 ≤ blk.vertexRange.max ∧ blk.vertexRange.max ≤ 2147483647 ∧
      -2147483648 ≤ blk.vertexRange.max - blk.vertexRange.min ∧
      blk.vertexRange.max - blk.vertexRange.min + 1 ≤ 2147483647) :
    (Task.requestBlur d K s g =
      if d.hasError (g ++ blurCalls K s) then
        .error (.assertion "glGetError() == GL_NO_ERROR")
      else
        .ok (g ++ blurCalls K s)) ∧
    (blurCalls K s =
      blurPrologue ++
        (s.mArrayedConnectionList.blocks.enum.flatMap (fun kb =>
          if kb.2.vertexRange.max - kb.2.vertexRange.min + 1 > 0 then
            blurBlockCmds K s kb.1 kb.2
          else [])) ++
        blurEpilogue) ∧
    (∀ (k : Nat) (blk : ArrayedConnection), blk ∈ s.mArrayedConnectionList.blocks →
      blurCount blk = blk.vertexRange.max - blk.vertexRange.min + 1 ∧
      blurBlockCmds K s k blk =
        [ .programBind .blur,
          .bindTexture (some k),
          .setAttributeBuffer "inPosition" .workInMesh 3,
          .setAttributeBuffer "inWeight" .workInWeight 1,
          .setAttributeArray "inOriginPosition" s.mOriginMesh,
          .setAttributeArray "inIndexRange" s.mArrayedConnectionList.indexRanges,
          .setUniformValue "uConnections" (.int 0),
          .setUniformValue "uConnectionCount" (.int K.kMaxCount),
          .setUniformValue "uBlurPressure" (.float s.mParam.blur),
          .bindBufferRange 0 .outMesh (12 * blk.vertexRange.min)
            (12 * (blk.vertexRange.max - blk.vertexRange.min + 1)),
          .beginTransformFeedback,
          .drawArrays blk.vertexRange.min (blk.vertexRange.max - blk.vertexRange.min + 1),
          .endTransformFeedback,
          .programRelease .blur ]) ∧
    (drawsOf b (blurCalls K s) = blurDraws b.feedback1 0 s.mArrayedConnectionList.blocks ∧
      ∀ r, r ∈ drawsOf b (blurCalls K s) ↔
        ∃ k blk, s.mArrayedConnectionList.blocks.get? k = some blk ∧
          blk.vertexRange.max - blk.vertexRange.min + 1 > 0 ∧
          r = { bound :=
                  { program := some .blur
                    texture := some k
                    feedback0 := some
                      { buffer := .outMesh,
                        range := some (12 * blk.vertexRange.min,
                          12 * (blk.vertexRange.max - blk.vertexRange.min + 1)) }
                    feedback1 := b.feedback1 }
                first := blk.vertexRange.min
                count := blk.vertexRange.max - blk.vertexRange.min + 1 }) ∧
    (s.mArrayedConnectionList.blocks.Pairwise (fun a c =>
        a.vertexRange.max < c.vertexRange.min ∨ c.vertexRange.max < a.vertexRange.min) →
      (∀ blk ∈ s.mArrayedConnectionList.blocks,
        0 ≤ blk.vertexRange.min ∧ blk.vertexRange.max < vertexCount) →
      (drawsOf b (blurCalls K s)).Pairwise (fun r1 r2 =>
        ∀ o1 z1 o2 z2, r1.outMeshRange = some (o1, z1) → r2.outMeshRange = some (o2, z2) →
          o1 + z1 ≤ o2 ∨ o2 + z2 ≤ o1) ∧
      ∀ r ∈ drawsOf b (blurCalls K s),
        r.outMeshRange = some (12 * r.first, 12 * r.count) ∧
        0 ≤ 12 * r.first ∧ 12 * r.first + 12 * r.count ≤ 12 * vertexCount) := by
  have hdraws : drawsOf b (blurCalls K s) =
      blurDraws b.feedback1 0 s.mArrayedConnectionList.blocks := by
    have h5 : ∀ b, drawsOf b blurPrologue = [] := fun b => by simp [blurPrologue, drawsOf]
    have h6 : ∀ b, drawsOf b blurEpilogue = [] := fun b => by simp [blurEpilogue, drawsOf]
    have h7 : (boundAfter b blurPrologue).feedback1 = b.feedback1 := by
      simp [blurPrologue, boundAfter, Bound.apply]
    rw [blurCalls, drawsOf_append, drawsOf_append, h5, h6,
      (drawsOf_blurLoop K s _ 0 _ hint).1, h7]
    simp
  have hmem : ∀ r, r ∈ drawsOf b (blurCalls K s) ↔
      ∃ k blk, s.mArrayedConnectionList.blocks.get? k = some blk ∧
        blk.vertexRange.max - blk.vertexRange.min + 1 > 0 ∧
        r = blurDraw b.feedback1 k blk := by
    intro r
    rw [hdraws, mem_blurDraws]
    simp
  refine ⟨requestBlur_eq d K s g htex, ?_, ?_, ⟨hdraws, ?_⟩, ?_⟩
  · rw [blurCalls, blurLoopCalls_eq K s 0 _ hint]
    rfl
  · intro k blk hblk
    exact ⟨blurCount_eq blk (hint blk hblk), blurBlockCmds_eq K s k blk (hint blk hblk)⟩
  · intro r
    rw [hmem]
    rfl
  · intro hdisj hin
    refine ⟨?_, ?_⟩
    · rw [hdraws]
      exact blurDraws_disjoint _ 0 _ hdisj
    · intro r hr
      obtain ⟨k, blk, hb, hc, rfl⟩ := (hmem r).mp hr
      obtain ⟨h0, h1⟩ := hin blk (List.get?_mem hb)
      simp only [DrawRecord.outMeshRange, blurDraw, true_and]
      omega

theorem program_ok (K : Consts) (res : Resource) (t h : Int)
    (hlen : res.mProgram.length = K.kVariation) (hV : K.kVariation = K.kType * K.kHardness)
    (ht0 : 0 ≤ t) (ht : t < (K.kType : Int)) (hh0 : 0 ≤ h) (hh : h < (K.kHardness : Int)) :
    ∃ q, res.program K t h = .ok q := by
  have h1 : (t + 1) * (K.kHardness : Int) ≤ (K.kType : Int) * (K.kHardness : Int) :=
    Int.mul_le_mul_of_nonneg_right (by omega) (by omega)
  have h2 : 0 ≤ t * (K.kHardness : Int) := Int.mul_nonneg ht0 (by omega)
  have h3 : (t + 1) * (K.kHardness : Int) = t * (K.kHardness : Int) + K.kHardness := by ring
  have h4 : ((res.mProgram.length : Nat) : Int) = (K.kType : Int) * (K.kHardness : Int) := by
    rw [hlen, hV]; push_cast; ring
  refine ⟨res.mProgram.getD (programSlot K t h).toNat default, ?_⟩
  simp only [Resource.program, Resource.element, programSlot]
  rw [if_pos ⟨ht, hh⟩, if_pos (by constructor <;> omega)]

theorem program_assertion (K : Consts) (res : Resource) (t h : Int)
    (hbad : (K.kType : Int) ≤ t ∨ (K.kHardness : Int) ≤ h) :
    res.program K t h = .error (.assertion "aType < kType && aHard < kHardness") := by
  simp only [Resource.program]
  rw [if_neg (by omega)]

theorem countP_isCopyFrom_blurLoop (K : Consts) (s : Task) (i : Nat)
    (blocks : List ArrayedConnection) :
    (blurLoopCalls K s i blocks).countP GLCmd.isCopyFrom = 0 := by
  induction blocks generalizing i with
  | nil => simp [blurLoopCalls]
  | cons blk rest ih =>
    have := ih (i + 1)
    simp only [blurLoopCalls, List.enumFrom_cons, List.flatMap_cons, List.countP_append] at this ⊢
    rw [this]
    by_cases hc : blurCount blk > 0
    · simp [hc, blurBlockCmds, GLCmd.isCopyFrom, List.countP_cons]
    · simp [hc]

theorem countP_isCopyFrom_requestCalls (K : Consts) (s : Task) :
    (requestCalls K s).countP GLCmd.isCopyFrom = if s.mUseBlur then 2 else 0 := by
  have h1 : (transformCalls s ++ deformPass K s).countP GLCmd.isCopyFrom = 0 := by
    by_cases ht : s.mParam.type = kTypeDeformer <;>
      simp [transformCalls, deformPass, deformBindings, ht, GLCmd.isCopyFrom, List.countP_cons]
  by_cases hb : s.mUseBlur = true
  · simp only [requestCalls, hb, if_true, blurCalls, List.countP_append] at h1 ⊢
    rw [countP_isCopyFrom_blurLoop]
    simp [h1, blurPrologue, blurEpilogue, GLCmd.isCopyFrom, List.countP_cons]
  · simp only [requestCalls, hb, List.append_nil]
    simpa using h1

theorem no_range_without_blur (K : Consts) (s : Task) (hb : s.mUseBlur = false) :
    ∀ c ∈ requestCalls K s, c.isBindBufferRange = false ∧ c.isCopyFrom = false := by
  by_cases ht : s.mParam.type = kTypeDeformer <;>
    simp [requestCalls, hb, transformCalls, deformPass, deformBindings, ht,
      GLCmd.isBindBufferRange, GLCmd.isCopyFrom]

theorem onRequested_after_writeSrc (d : Driver) (K : Consts) (res : Resource) (e : Nat)
    (m : Ptr) (o : LayerMesh) (p : FFDParam) (s : Task) (g : List GLCmd)
    (hm : m.isSome = true) (hv : 0 < o.vertexCount) (hvalid : s.mOutMesh.valid = true)
    (hcap : o.vertexCount ≤ s.mOutMesh.dataCount) (hr : 0 < p.radius)
    (hprog : ∃ q, res.program K p.type p.hardness = .ok q)
    (hd : ∀ l, d.hasError l = false) :
    ∃ s2 g2, Task.writeSrc K e m o p s g = .ok (s2, g2) ∧
      s2.mParam = p ∧ s2.mSrcMesh.count = o.vertexCount ∧ s2.mVtxCount = s.mVtxCount ∧
      s2.mOutMesh = s.mOutMesh ∧
      s2.mUseBlur = decide (p.type = kTypeDeformer ∧ p.blur > 0) ∧
      (s2.mUseBlur = true → s2.mArrayedConnectionList = o.resetArrayedConnection m) ∧
      Task.onRequested d K res s2 g2 = .ok (g2 ++ requestCalls K s2) := by
  obtain ⟨s2, g2, w0, w1, w2, w3, _, w5, w6, _, _, w9, _, _, _, w13, _⟩ :=
    writeSrc_ok K e m o p s g hm hv
  refine ⟨s2, g2, w0, w3, by rw [w2], w6, w9, w5, fun hb => (w13 hb).1, ?_⟩
  rw [onRequested_eq d K res s2 g2 (by rw [w1]; rfl) (by rw [w2]; exact hm)
    (by rw [w9]; exact hvalid) (by rw [w3]; exact hr) (by rw [w2, w9]; exact hcap)
    (by rw [w3]; exact hprog) (fun hb => le_of_eq (w13 hb).2.symm), hd]
  simp

/-- C5: `writeSrc` sets `mUseBlur` exactly when `param.type` is Deformer and
`param.blur > 0`. The calls of the following `onRequested` are the deformation pass, with
its single draw of the source vertices, followed by the calls of `requestBlur` once when
`mUseBlur` is set and by nothing otherwise. For a param with `blur = 0` or type Eraser the
calls hold no buffer copy and no range feedback binding, and their only draw is the
deformation draw. -/
theorem useBlur_gates_blur_pass (d : Driver) (K : Consts) (res : Resource) (e : Nat)
    (m : Ptr) (o : LayerMesh) (p : FFDParam) (s : Task) (g : List GLCmd)
    (hm : m.isSome = true) (hv : 0 < o.vertexCount) (hvalid : s.mOutMesh.valid = true)
    (hcap : o.vertexCount ≤ s.mOutMesh.dataCount) (hr : 0 < p.radius)
    (hprog : ∃ q, res.program K p.type p.hardness = .ok q)
    (hd : ∀ l, d.hasError l = false) :
    ∃ s2 g2, Task.writeSrc K e m o p s g = .ok (s2, g2) ∧
      (s2.mUseBlur = true ↔ (p.type = kTypeDeformer ∧ p.blur > 0)) ∧
      Task.onRequested d K res s2 g2 =
        .ok (g2 ++ (transformCalls s2 ++ deformPass K s2
          ++ (if s2.mUseBlur then blurCalls K s2 else []))) ∧
      drawsOf Bound.empty (transformCalls s2 ++ deformPass K s2) = [deformDraw K s2] ∧
      (deformDraw K s2).first = 0 ∧ (deformDraw K s2).count = o.vertexCount ∧
      ((transformCalls s2 ++ deformPass K s2
          ++ (if s2.mUseBlur then blurCalls K s2 else [])).countP GLCmd.isCopyFrom =
        if s2.mUseBlur then 2 else 0) ∧
      ((p.blur = 0 ∨ p.type = kTypeEraser) →
        s2.mUseBlur = false ∧
        Task.onRequested d K res s2 g2 = .ok (g2 ++ (transformCalls s2 ++ deformPass K s2)) ∧
        (∀ c ∈ transformCalls s2 ++ deformPass K s2,
          c.isBindBufferRange = false ∧ c.isCopyFrom = false)) := by
  obtain ⟨s2, g2, w0, _, w2, _, _, w5, _, w7⟩ :=
    onRequested_after_writeSrc d K res e m o p s g hm hv hvalid hcap hr hprog hd
  have hcount := countP_isCopyFrom_requestCalls K s2
  refine ⟨s2, g2, w0, ?_, w7, (drawsOf_deformPass K s2 Bound.empty rfl rfl).1, rfl, w2,
    hcount, ?_⟩
  · rw [w5]; simp
  · intro hp
    have hb : s2.mUseBlur = false := by
      rw [w5]
      rcases hp with h0 | h1
      · simp [h0]
      · simp [h1, kTypeEraser, kTypeDeformer]
    have hno := no_range_without_blur K s2 hb
    simp only [requestCalls, hb, Bool.false_eq_true, if_false, List.append_nil] at w7 hno
    exact ⟨hb, w7, hno⟩

theorem setup_result_built (env : Env) (K : Consts) (r res : Resource) (pb pe pl : String)
    (tr : List Step) (hclean : ∀ x, env.glError x = false) (hT : K.kType = 2)
    (hV : K.kVariation = K.kType * K.kHardness) (hlen : r.mProgram.length = K.kVariation)
    (hsetup : (Resource.setup env K r pb pe pl tr).result = .ok res) :
    res = builtResource K r ((env.readFile pb).getD "") ((env.readFile pe).getD "")
      ((env.readFile pl).getD "") := by
  have hlen2 : 2 * K.kHardness ≤ r.mProgram.length := by rw [hlen, hV, hT]
  rw [setup_outcome env hclean K r hlen2 pb pe pl tr] at hsetup
  simp only [planOutcome] at hsetup
  cases hf : (setupSteps K pb pe pl ((env.readFile pb).getD "") ((env.readFile pe).getD "")
      ((env.readFile pl).getD "")).find? env.fails with
  | some st => simp [hf] at hsetup
  | none =>
    simp only [hf, Except.ok.injEq] at hsetup
    exact hsetup.symm

/-- C6: with a pool returned by `setup` and a configured state whose hardness is in range:
for type Eraser the program that `onRequested` binds was built with the one varying
`outPosition`, the only draw captures with the whole output position buffer at feedback
slot 0 and nothing at slot 1, and no call binds the output weight buffer as a feedback
target; for type Deformer the program was built with the varyings `outPosition`,
`outWeight` in this order and the deformation draw captures with the output position
buffer at slot 0 and the output weight buffer at slot 1. -/
theorem feedback_bindings_by_type (env : Env) (d : Driver) (K : Consts) (r res : Resource)
    (pb pe pl : String) (tr : List Step) (e : Nat) (m : Ptr) (o : LayerMesh) (p : FFDParam)
    (s : Task) (g : List GLCmd)
    (hclean : ∀ x, env.glError x = false) (hT : K.kType = 2)
    (hV : K.kVariation = K.kType * K.kHardness) (hlen : r.mProgram.length = K.kVariation)
    (hsetup : (Resource.setup env K r pb pe pl tr).result = .ok res)
    (hm : m.isSome = true) (hv : 0 < o.vertexCount) (hvalid : s.mOutMesh.valid = true)
    (hcap : o.vertexCount ≤ s.mOutMesh.dataCount) (hr : 0 < p.radius)
    (hh0 : 0 ≤ p.hardness) (hh : p.hardness < (K.kHardness : Int))
    (hd : ∀ l, d.hasError l = false) :
    (p.type = kTypeEraser →
      ∃ s2 g2 q, Task.writeSrc K e m o p s g = .ok (s2, g2) ∧
        Task.onRequested d K res s2 g2 = .ok (g2 ++ requestCalls K s2) ∧
        res.program K p.type p.hardness = .ok q ∧
        res.element (programSlot K p.type p.hardness) = .ok q ∧
        q.feedbackVaryings = ["outPosition"] ∧
        drawsOf Bound.empty (requestCalls K s2) =
          [{ bound := { program := some (.variation (programSlot K p.type p.hardness))
                        texture := none
                        feedback0 := some { buffer := .outMesh, range := none }
                        feedback1 := none }
             first := 0
             count := o.vertexCount }] ∧
        ∀ c ∈ requestCalls K s2, c.bindsFeedback .outWeight = false) ∧
    (p.type = kTypeDeformer →
      ∃ s2 g2 q, Task.writeSrc K e m o p s g = .ok (s2, g2) ∧
        Task.onRequested d K res s2 g2 = .ok (g2 ++ requestCalls K s2) ∧
        res.program K p.type p.hardness = .ok q ∧
        res.element (programSlot K p.type p.hardness) = .ok q ∧
        q.feedbackVaryings = ["outPosition", "outWeight"] ∧
        (drawsOf Bound.empty (requestCalls K s2)).head? =
          some { bound := { program := some (.variation (programSlot K p.type p.hardness))
                            texture := none
                            feedback0 := some { buffer := .outMesh, range := none }
                            feedback1 := some { buffer := .outWeight, range := none } }
                 first := 0
                 count := o.vertexCount }) := by
  have hres := setup_result_built env K r res pb pe pl tr hclean hT hV hlen hsetup
  have hlen2 : r.mProgram.length = 2 * K.kHardness := by rw [hlen, hV, hT]
  have hprogram : ∀ t : Int, 0 ≤ t → t < (K.kType : Int) →
      res.program K t p.hardness =
        .ok (builtProgram (if t = kTypeDeformer then (env.readFile pb).getD ""
          else (env.readFile pe).getD "") t p.hardness) := by
    intro t ht0 ht
    rw [hres]
    exact builtResource_program K hT r hlen2 _ _ _ t p.hardness ht0 ht hh0 hh
  have helement : ∀ t : Int, t < (K.kType : Int) → ∀ q, res.program K t p.hardness = .ok q →
      res.element (programSlot K t p.hardness) = .ok q := by
    intro t ht q hq
    simp only [Resource.program] at hq
    rw [if_pos ⟨ht, hh⟩] at hq
    exact hq
  constructor
  · intro ht
    have htr : (1 : Int) < (K.kType : Int) := by rw [hT]; decide
    have hq := hprogram 1 (by decide) htr
    obtain ⟨s2, g2, w0, w1, w2, _, _, w5, _, w7⟩ :=
      onRequested_after_writeSrc d K res e m o p s g hm hv hvalid hcap hr
        ⟨_, by rw [ht]; exact hq⟩ hd
    have hb : s2.mUseBlur = false := by
      rw [w5]; simp [ht, kTypeEraser, kTypeDeformer]
    refine ⟨s2, g2, _, w0, w7, by rw [ht]; exact hq,
      by rw [ht]; exact helement 1 htr _ hq, ?_, ?_, ?_⟩
    · simp [builtProgram, shaderVaryings, kTypeDeformer]
    · rw [drawsOf_requestCalls, hb]
      simp [deformDraw, w1, w2, ht, kTypeEraser, kTypeDeformer]
    · simp [requestCalls, hb, transformCalls, deformPass, deformBindings, w1, ht,
        kTypeEraser, kTypeDeformer, GLCmd.bindsFeedback]
  · intro ht
    have htr : (0 : Int) < (K.kType : Int) := by rw [hT]; decide
    have hq := hprogram 0 (by decide) htr
    obtain ⟨s2, g2, w0, w1, w2, _, _, w5, _, w7⟩ :=
      onRequested_after_writeSrc d K res e m o p s g hm hv hvalid hcap hr
        ⟨_, by rw [ht]; exact hq⟩ hd
    refine ⟨s2, g2, _, w0, w7, by rw [ht]; exact hq,
      by rw [ht]; exact helement 0 htr _ hq, ?_, ?_⟩
    · simp [builtProgram, shaderVaryings, kTypeDeformer]
    · rw [drawsOf_requestCalls]
      simp [deformDraw, w1, w2, ht, kTypeDeformer]

theorem onFinished_ok (d : Driver) (s : Task) (g : List GLCmd)
    (hd : ∀ l, d.hasError l = false) :
    Task.onFinished d s g = .ok (g ++ readbackCalls s) := by
  simp [Task.onFinished, hd]

/-- C4 as amended: from every reached state, for every `n > 0`, a param with `radius > 0`
and a key in range, and a GL driver that reports no error, the sequence `resetDst(n)`,
`writeSrc` with a source and an origin mesh of `n` vertices, `onRequested`, `onFinished`
returns; the capacity becomes `max(old capacity, n)`; the first draw of `onRequested` is
the deformation draw of the vertices `0 .. n - 1` capturing into the whole output position
buffer at slot 0; and `onFinished` reads `12 * n` bytes from offset 0. -/
theorem request_cycle_counts (d : Driver) (K : Consts) (res : Resource) (ops : List Op)
    (param0 : FFDParam) (valid0 : Bool) (g0 g : List GLCmd) (s : Task)
    (n : Int) (e : Nat) (m : Ptr) (o : LayerMesh) (p : FFDParam)
    (hrun : runOps d K res ops (Task.new param0 valid0, g0) = .ok (s, g))
    (hn : 0 < n) (hm : m.isSome = true) (ho : o.vertexCount = n) (hr : 0 < p.radius)
    (ht0 : 0 ≤ p.type) (ht : p.type < (K.kType : Int))
    (hh0 : 0 ≤ p.hardness) (hh : p.hardness < (K.kHardness : Int))
    (hlen : res.mProgram.length = K.kVariation) (hV : K.kVariation = K.kType * K.kHardness)
    (hd : ∀ l, d.hasError l = false) :
    ∃ s2 g2,
      runOps d K res [.resetDst n, .writeSrc e m o p] (s, g) = .ok (s2, g2) ∧
      s2.mVtxCount = n ∧ s2.mSrcMesh.count = n ∧
      s2.mDstBufferCount = max s.mDstBufferCount n ∧
      runOps d K res [.onRequested, .onFinished] (s2, g2) =
        .ok (s2, g2 ++ requestCalls K s2 ++ readbackCalls s2) ∧
      (drawsOf Bound.empty (requestCalls K s2)).head? =
        some { bound := { program := some (.variation (programSlot K p.type p.hardness))
                          texture := none
                          feedback0 := some { buffer := .outMesh, range := none }
                          feedback1 :=
                            if p.type = kTypeDeformer then
                              some { buffer := .outWeight, range := none }
                            else none }
               first := 0
               count := n } ∧
      readbackCalls s2 =
        [.bufferBind .outMesh, .getBufferSubData 0 (12 * n), .bufferRelease .outMesh] := by
  obtain ⟨⟨i1, i2, i3, i4, i5, i6, i7⟩, _, _⟩ :=
    inv_run d K res ops _ _ hrun (inv_new param0 valid0)
  simp only at i1 i2 i3 i4 i5 i6 i7
  obtain ⟨s1, g1, hs1, hvtx1, hcap1, _, _⟩ := resetDst_spec s g n hn
  have hinv1 : s1.Inv ∧ _ := inv_step d K res (.resetDst n) (s, g) (s1, g1) hs1
    ⟨i1, i2, i3, i4, i5, i6, i7⟩
  obtain ⟨⟨_, j2, j3, _, _, j6, _⟩, _, jpos⟩ := hinv1
  simp only [Op.isResetDst, forall_const] at j2 j3 j6 jpos
  have hvalid1 : s1.mOutMesh.valid = true := by rw [(j6 jpos).2.1]; rfl
  have hcapn : o.vertexCount ≤ s1.mOutMesh.dataCount := by rw [ho, j3]; omega
  obtain ⟨s2, g2, w0, w1, w2, w3, _, _, _, w7⟩ :=
    onRequested_after_writeSrc d K res e m o p s1 g1 hm (by rw [ho]; exact hn) hvalid1 hcapn hr
      (program_ok K res p.type p.hardness hlen hV ht0 ht hh0 hh) hd
  have hcap2 : s2.mDstBufferCount = s1.mDstBufferCount := by
    obtain ⟨s2b, g2b, w0b, _, _, _, _, _, _, wc, _⟩ :=
      writeSrc_ok K e m o p s1 g1 hm (by rw [ho]; exact hn)
    rw [w0] at w0b
    simp only [Except.ok.injEq, Prod.mk.injEq] at w0b
    rw [w0b.1]; exact wc
  refine ⟨s2, g2, ?_, by rw [w3, hvtx1], by rw [w2, ho], by rw [hcap2, hcap1], ?_, ?_, ?_⟩
  · simp only [runOps, Op.run]
    rw [hs1]
    simp only []
    rw [w0]
  · simp only [runOps, Op.run, w7, onFinished_ok d s2 _ hd]
  · rw [drawsOf_requestCalls]
    simp [deformDraw, w1, w2, ho]
  · simp [readbackCalls, w3, hvtx1, sizeofVector3]

theorem step_last (d : Driver) (K : Consts) (res : Resource) (op : Op)
    (st st2 : Task × List GLCmd) (h : op.run d K res st = .ok st2) :
    st2.1.mVtxCount = op.resetCount.getD st.1.mVtxCount ∧
    st2.1.mSrcMesh.count = op.writeCount.getD st.1.mSrcMesh.count ∧
    (st2.1.mSrcExpans.isSome = true ↔
      st.1.mSrcExpans.isSome = true ∨ op.writeCount.isSome = true) := by
  cases op with
  | resetDst n =>
    have hn := resetDst_pre n st.1 st.2 st2 h
    simp only [Op.run, resetDst_ok _ _ _ hn] at h
    by_cases hc : st.1.mDstBufferCount < n
    · rw [if_pos hc, Except.ok.injEq] at h
      subst h
      simp [Op.resetCount, Op.writeCount]
    · rw [if_neg hc, Except.ok.injEq] at h
      subst h
      simp [Op.resetCount, Op.writeCount]
  | writeSrc e m o p =>
    obtain ⟨hm, hv⟩ := writeSrc_pre K e m o p st.1 st.2 st2 h
    obtain ⟨s2, g2, w0, w1, w2, _, _, _, w6, _⟩ := writeSrc_ok K e m o p st.1 st.2 hm hv
    simp only [Op.run, w0, Except.ok.injEq] at h
    subst h
    simp [Op.resetCount, Op.writeCount, w1, w2, w6]
  | setBrush w wi c v =>
    simp only [Op.run, Except.ok.injEq] at h
    subst h
    simp [Op.resetCount, Op.writeCount, Task.setBrush]
  | onRequested =>
    rw [onRequested_state d K res _ st st2 h (Or.inl rfl)]
    simp [Op.resetCount, Op.writeCount]
  | onFinished =>
    rw [onRequested_state d K res _ st st2 h (Or.inr rfl)]
    simp [Op.resetCount, Op.writeCount]

theorem run_last (d : Driver) (K : Consts) (res : Resource) (ops : List Op)
    (st st2 : Task × List GLCmd) (h : runOps d K res ops st = .ok st2) :
    st2.1.mVtxCount = (lastResetDst ops).getD st.1.mVtxCount ∧
    st2.1.mSrcMesh.count = (lastWriteSrc ops).getD st.1.mSrcMesh.count ∧
    (st2.1.mSrcExpans.isSome = true ↔
      st.1.mSrcExpans.isSome = true ∨ (lastWriteSrc ops).isSome = true) := by
  induction ops generalizing st with
  | nil =>
    simp only [runOps, Except.ok.injEq] at h
    subst h
    simp [lastResetDst, lastWriteSrc]
  | cons op rest ih =>
    simp only [runOps] at h
    cases hr : op.run d K res st with
    | error e => simp [hr] at h
    | ok st1 =>
      simp only [hr] at h
      obtain ⟨a1, a2, a3⟩ := step_last d K res op st st1 hr
      obtain ⟨b1, b2, b3⟩ := ih st1 h
      rw [lastResetDst, lastWriteSrc, b1, b2, b3, a1, a2, a3]
      refine ⟨?_, ?_, ?_⟩
      · cases lastResetDst rest <;> simp
      · cases lastWriteSrc rest <;> simp
      · cases lastWriteSrc rest <;> cases op.writeCount <;> simp

/-- C10 as amended: in every state reached from a new task in which the assertions of
`onRequested` on the source and on the buffer size pass, `onRequested` draws the vertex
count of the origin mesh of the last `writeSrc` and `onFinished` reads back the count given
to the last `resetDst`; both are at most the element count of the output position buffer;
the two counts are equal exactly when the last `resetDst` was given the vertex count of the
origin mesh of the last `writeSrc`. -/
theorem readback_count_vs_drawn_count (d : Driver) (K : Consts) (res : Resource)
    (ops : List Op) (param0 : FFDParam) (valid0 : Bool) (g0 g : List GLCmd) (s : Task)
    (hrun : runOps d K res ops (Task.new param0 valid0, g0) = .ok (s, g))
    (h1 : s.mSrcExpans.isSome = true)
    (h5 : s.mSrcMesh.count ≤ s.mOutMesh.dataCount) :
    drawCounts (transformCalls s ++ deformPass K s) = [s.mSrcMesh.count] ∧
    lastWriteSrc ops = some s.mSrcMesh.count ∧
    readbackSizes (readbackCalls s) = [sizeofVector3 * s.mVtxCount] ∧
    s.mVtxCount = (lastResetDst ops).getD 0 ∧
    s.mSrcMesh.count ≤ s.mOutMesh.dataCount ∧
    s.mVtxCount ≤ s.mOutMesh.dataCount ∧
    (s.mVtxCount = s.mSrcMesh.count ↔ (lastResetDst ops).getD 0 = s.mSrcMesh.count) := by
  obtain ⟨⟨_, i2, i3, _⟩, _, _⟩ := inv_run d K res ops _ _ hrun (inv_new param0 valid0)
  obtain ⟨a1, a2, a3⟩ := run_last d K res ops _ _ hrun
  simp only [Task.new] at a1 a2 a3 i2 i3
  have hw : lastWriteSrc ops = some s.mSrcMesh.count := by
    have := a3.mp h1
    cases hl : lastWriteSrc ops with
    | none => simp [hl] at this
    | some c => rw [a2, hl]; rfl
  refine ⟨?_, hw, rfl, a1, h5, by rw [i3]; exact i2, by rw [← a1]⟩
  by_cases ht : s.mParam.type = kTypeDeformer <;>
    simp [transformCalls, deformPass, deformBindings, ht, drawCounts]

/-- Counterexample to C4 as stated: with the example pool of three hardness levels, the
sequence `resetDst(3)`, `writeSrc` with a mesh of three vertices and a param of radius 2
and hardness 3, `onRequested`, `onFinished` stops at the assertion of `Resource::program`. -/
theorem request_cycle_stops_on_hardness_out_of_range :
    runOps cleanDriver exampleConsts exampleBuiltPool
      [.resetDst 3, .writeSrc 0 (some 1) exampleMesh exampleParamHard3, .onRequested,
       .onFinished] (exampleTask, [])
      = .error (.assertion "aType < kType && aHard < kHardness") := by
  rfl

/-- Counterexample to C10 as stated: after `resetDst(5)` and `writeSrc` with a mesh of three
vertices every assertion of `onRequested` passes, `onRequested` draws 3 vertices and
`onFinished` reads back 60 bytes, which are 5 positions. -/
theorem readback_count_differs_from_drawn_count :
    observe (runOps cleanDriver exampleConsts exampleBuiltPool
      [.resetDst 5, .writeSrc 0 (some 1) exampleMesh exampleParam, .onRequested,
       .onFinished] (exampleTask, []))
      = .ok ([3], [60]) := by
  rfl

/-- Witness of C3: `resetDst(4)` on the example task, and the sequence 2, 5, 3. -/
theorem resetDst_capacity_witness :
    ((0 : Int) < 4 ∧ ∀ m ∈ ([2, 5, 3] : List Int), 0 < m) ∧
    ((∃ s2 g2, Task.resetDst 4 exampleTask [] = .ok (s2, g2) ∧
      s2.mVtxCount = 4 ∧
      s2.mDstBufferCount = max exampleTask.mDstBufferCount 4 ∧
      (exampleTask.mDstBufferCount < 4 →
        s2.mDstMesh = some 4 ∧
        s2.mOutMesh = BufferObject.resetData sizeofVector3 4 ∧
        s2.mOutWeight = BufferObject.resetData sizeofGLfloat 4 ∧
        g2 = [] ++ [.resetData .outMesh sizeofVector3 4, .resetData .outWeight sizeofGLfloat 4]) ∧
      (4 ≤ exampleTask.mDstBufferCount →
        s2.mDstMesh = exampleTask.mDstMesh ∧ s2.mOutMesh = exampleTask.mOutMesh ∧
        s2.mOutWeight = exampleTask.mOutWeight ∧ g2 = [])) ∧
    (∃ s2 g2, runOps cleanDriver exampleConsts exampleBuiltPool
        (([2, 5, 3] : List Int).map Op.resetDst) (exampleTask, []) = .ok (s2, g2) ∧
      exampleTask.mDstBufferCount ≤ s2.mDstBufferCount ∧
      (∀ m ∈ ([2, 5, 3] : List Int), m ≤ s2.mDstBufferCount) ∧
      (s2.mDstBufferCount = exampleTask.mDstBufferCount ∨
        s2.mDstBufferCount ∈ ([2, 5, 3] : List Int))) ∧
    (∃ s2 g2, runOps cleanDriver exampleConsts exampleBuiltPool
        (([2, 5, 3] : List Int).map Op.resetDst) (Task.new exampleParam false, []) = .ok (s2, g2) ∧
      (∀ m ∈ ([2, 5, 3] : List Int), m ≤ s2.mDstBufferCount) ∧
      (([2, 5, 3] : List Int) ≠ [] → s2.mDstBufferCount ∈ ([2, 5, 3] : List Int)))) :=
  ⟨⟨by decide, by decide⟩,
    resetDst_capacity cleanDriver exampleConsts exampleBuiltPool exampleTask [] 4 [2, 5, 3]
      exampleParam false (by decide) (by decide)⟩

/-- Witness of C9: the example sequence of calls run on a new task. -/
theorem reachable_counts_within_capacity_witness :
    runOps cleanDriver exampleConsts exampleBuiltPool exampleOps
      (Task.new exampleParam false, []) = .ok (exampleReached.1, exampleReached.2) ∧
    (exampleReached.1.mVtxCount ≤ exampleReached.1.mDstBufferCount ∧
    ((∃ op ∈ exampleOps, op.isResetDst = true) →
      exampleReached.1.mDstMesh = some exampleReached.1.mDstBufferCount ∧
      exampleReached.1.mOutMesh =
        BufferObject.resetData sizeofVector3 exampleReached.1.mDstBufferCount ∧
      exampleReached.1.mOutWeight =
        BufferObject.resetData sizeofGLfloat exampleReached.1.mDstBufferCount) ∧
    (exampleReached.1.hostCount = exampleReached.1.mDstBufferCount ∧
      exampleReached.1.mOutMesh.dataCount = exampleReached.1.mDstBufferCount ∧
      exampleReached.1.mOutWeight.dataCount = exampleReached.1.mDstBufferCount) ∧
    (readbackSizes (readbackCalls exampleReached.1) =
        [sizeofVector3 * exampleReached.1.mVtxCount] ∧
      0 ≤ sizeofVector3 * exampleReached.1.mVtxCount ∧
      sizeofVector3 * exampleReached.1.mVtxCount ≤ exampleReached.1.mOutMesh.byteSize ∧
      sizeofVector3 * exampleReached.1.mVtxCount ≤
        sizeofVector3 * exampleReached.1.hostCount)) :=
  ⟨rfl,
    reachable_counts_within_capacity cleanDriver exampleConsts exampleBuiltPool exampleOps
      exampleParam false [] exampleReached.2 exampleReached.1 rfl⟩

/-- Witness of C10 as amended: capacity 5, then a mesh of three vertices. -/
theorem readback_count_vs_drawn_count_witness :
    (runOps cleanDriver exampleConsts exampleBuiltPool exampleOps
        (Task.new exampleParam false, []) = .ok (exampleReached.1, exampleReached.2) ∧
      exampleReached.1.mSrcExpans.isSome = true ∧
      exampleReached.1.mSrcMesh.count ≤ exampleReached.1.mOutMesh.dataCount) ∧
    (drawCounts (transformCalls exampleReached.1 ++ deformPass exampleConsts exampleReached.1)
        = [exampleReached.1.mSrcMesh.count] ∧
      lastWriteSrc exampleOps = some exampleReached.1.mSrcMesh.count ∧
      readbackSizes (readbackCalls exampleReached.1) =
        [sizeofVector3 * exampleReached.1.mVtxCount] ∧
      exampleReached.1.mVtxCount = (lastResetDst exampleOps).getD 0 ∧
      exampleReached.1.mSrcMesh.count ≤ exampleReached.1.mOutMesh.dataCount ∧
      exampleReached.1.mVtxCount ≤ exampleReached.1.mOutMesh.dataCount ∧
      (exampleReached.1.mVtxCount = exampleReached.1.mSrcMesh.count ↔
        (lastResetDst exampleOps).getD 0 = exampleReached.1.mSrcMesh.count)) :=
  ⟨⟨rfl, rfl, by decide⟩,
    readback_count_vs_drawn_count cleanDriver exampleConsts exampleBuiltPool exampleOps
      exampleParam false [] exampleReached.2 exampleReached.1 rfl rfl (by decide)⟩

/-- Witness of C4 as amended: from the example reached state of capacity 5, the cycle with
`n = 3` and the example mesh of three vertices. -/
theorem request_cycle_counts_witness :
    (runOps cleanDriver exampleConsts exampleBuiltPool exampleOps
        (Task.new exampleParam false, []) = .ok (exampleReached.1, exampleReached.2) ∧
      (0 : Int) < 3 ∧ (some 1 : Ptr).isSome = true ∧ exampleMesh.vertexCount = 3 ∧
      0 < exampleParam.radius ∧
      0 ≤ exampleParam.type ∧ exampleParam.type < (exampleConsts.kType : Int) ∧
      0 ≤ exampleParam.hardness ∧ exampleParam.hardness < (exampleConsts.kHardness : Int) ∧
      exampleBuiltPool.mProgram.length = exampleConsts.kVariation ∧
      exampleConsts.kVariation = exampleConsts.kType * exampleConsts.kHardness ∧
      ∀ l, cleanDriver.hasError l = false) ∧
    (∃ s2 g2,
      runOps cleanDriver exampleConsts exampleBuiltPool
        [.resetDst 3, .writeSrc 0 (some 1) exampleMesh exampleParam]
        (exampleReached.1, exampleReached.2) = .ok (s2, g2) ∧
      s2.mVtxCount = 3 ∧ s2.mSrcMesh.count = 3 ∧
      s2.mDstBufferCount = max exampleReached.1.mDstBufferCount 3 ∧
      runOps cleanDriver exampleConsts exampleBuiltPool [.onRequested, .onFinished] (s2, g2) =
        .ok (s2, g2 ++ requestCalls exampleConsts s2 ++ readbackCalls s2) ∧
      (drawsOf Bound.empty (requestCalls exampleConsts s2)).head? =
        some { bound := { program := some (.variation
                            (programSlot exampleConsts exampleParam.type exampleParam.hardness))
                          texture := none
                          feedback0 := some { buffer := .outMesh, range := none }
                          feedback1 :=
                            if exampleParam.type = kTypeDeformer then
                              some { buffer := .outWeight, range := none }
                            else none }
               first := 0
               count := 3 } ∧
      readbackCalls s2 =
        [.bufferBind .outMesh, .getBufferSubData 0 (12 * 3), .bufferRelease .outMesh]) :=
  ⟨⟨rfl, by decide, rfl, rfl, by decide, by decide, by decide, by decide, by decide, rfl, rfl,
      fun _ => rfl⟩,
    request_cycle_counts cleanDriver exampleConsts exampleBuiltPool exampleOps exampleParam
      false [] exampleReached.2 exampleReached.1 3 0 (some 1) exampleMesh exampleParam
      rfl (by decide) rfl rfl (by decide) (by decide) (by decide) (by decide) (by decide)
      rfl rfl (fun _ => rfl)⟩

/-- Witness of C5 on the example reached state with the example mesh: with the example
blur parameter the blur pass follows the deformation pass, with the example parameter
without blur it does not. -/
theorem useBlur_gates_blur_pass_witness :
    ((some 1 : Ptr).isSome = true ∧ 0 < exampleMesh.vertexCount ∧
      exampleReached.1.mOutMesh.valid = true ∧
      exampleMesh.vertexCount ≤ exampleReached.1.mOutMesh.dataCount ∧
      0 < exampleBlurParam.radius ∧ 0 < exampleParam.radius ∧
      (∃ q, exampleBuiltPool.program exampleConsts exampleBlurParam.type
        exampleBlurParam.hardness = .ok q) ∧
      (∃ q, exampleBuiltPool.program exampleConsts exampleParam.type
        exampleParam.hardness = .ok q) ∧
      ∀ l, cleanDriver.hasError l = false) ∧
    (∃ s2 g2, Task.writeSrc exampleConsts 0 (some 1) exampleMesh exampleBlurParam
        exampleReached.1 exampleReached.2 = .ok (s2, g2) ∧
      (s2.mUseBlur = true ↔
        (exampleBlurParam.type = kTypeDeformer ∧ exampleBlurParam.blur > 0)) ∧
      Task.onRequested cleanDriver exampleConsts exampleBuiltPool s2 g2 =
        .ok (g2 ++ (transformCalls s2 ++ deformPass exampleConsts s2
          ++ (if s2.mUseBlur then blurCalls exampleConsts s2 else []))) ∧
      drawsOf Bound.empty (transformCalls s2 ++ deformPass exampleConsts s2) =
        [deformDraw exampleConsts s2] ∧
      (deformDraw exampleConsts s2).first = 0 ∧
      (deformDraw exampleConsts s2).count = exampleMesh.vertexCount ∧
      ((transformCalls s2 ++ deformPass exampleConsts s2
          ++ (if s2.mUseBlur then blurCalls exampleConsts s2 else [])).countP GLCmd.isCopyFrom =
        if s2.mUseBlur then 2 else 0) ∧
      ((exampleBlurParam.blur = 0 ∨ exampleBlurParam.type = kTypeEraser) →
        s2.mUseBlur = false ∧
        Task.onRequested cleanDriver exampleConsts exampleBuiltPool s2 g2 =
          .ok (g2 ++ (transformCalls s2 ++ deformPass exampleConsts s2)) ∧
        (∀ c ∈ transformCalls s2 ++ deformPass exampleConsts s2,
          c.isBindBufferRange = false ∧ c.isCopyFrom = false))) ∧
    (∃ s2 g2, Task.writeSrc exampleConsts 0 (some 1) exampleMesh exampleParam
        exampleReached.1 exampleReached.2 = .ok (s2, g2) ∧
      s2.mUseBlur = false ∧
      Task.onRequested cleanDriver exampleConsts exampleBuiltPool s2 g2 =
        .ok (g2 ++ (transformCalls s2 ++ deformPass exampleConsts s2)) ∧
      drawsOf Bound.empty (transformCalls s2 ++ deformPass exampleConsts s2) =
        [deformDraw exampleConsts s2] ∧
      (∀ c ∈ transformCalls s2 ++ deformPass exampleConsts s2,
        c.isBindBufferRange = false ∧ c.isCopyFrom = false)) :=
  ⟨⟨rfl, by decide, rfl, by decide, by decide, by decide, ⟨_, rfl⟩, ⟨_, rfl⟩, fun _ => rfl⟩,
    useBlur_gates_blur_pass cleanDriver exampleConsts exampleBuiltPool 0 (some 1) exampleMesh
      exampleBlurParam exampleReached.1 exampleReached.2 rfl (by decide) rfl (by decide)
      (by decide) ⟨_, rfl⟩ (fun _ => rfl),
    (useBlur_gates_blur_pass cleanDriver exampleConsts exampleBuiltPool 0 (some 1) exampleMesh
      exampleParam exampleReached.1 exampleReached.2 rfl (by decide) rfl (by decide)
      (by decide) ⟨_, rfl⟩ (fun _ => rfl)).elim fun s2 h => h.elim fun g2 h =>
        ⟨s2, g2, h.1, (h.2.2.2.2.2.2.2 (Or.inl rfl)).1, (h.2.2.2.2.2.2.2 (Or.inl rfl)).2.1,
          h.2.2.2.1, (h.2.2.2.2.2.2.2 (Or.inl rfl)).2.2⟩⟩

/-- Witness of C6: the pool that `setup` returns in the example environment, with the
example eraser parameter and with the example blur parameter of type Deformer, on the
example reached state. -/
theorem feedback_bindings_by_type_witness :
    ((∀ x, exampleEnv.glError x = false) ∧ exampleConsts.kType = 2 ∧
      exampleConsts.kVariation = exampleConsts.kType * exampleConsts.kHardness ∧
      examplePool.mProgram.length = exampleConsts.kVariation ∧
      (Resource.setup exampleEnv exampleConsts examplePool "brush" "eraser" "blur" []).result
        = .ok exampleBuiltPool ∧
      (some 1 : Ptr).isSome = true ∧ 0 < exampleMesh.vertexCount ∧
      exampleReached.1.mOutMesh.valid = true ∧
      exampleMesh.vertexCount ≤ exampleReached.1.mOutMesh.dataCount ∧
      0 < exampleEraserParam.radius ∧ 0 ≤ exampleEraserParam.hardness ∧
      exampleEraserParam.hardness < (exampleConsts.kHardness : Int) ∧
      0 < exampleBlurParam.radius ∧ 0 ≤ exampleBlurParam.hardness ∧
      exampleBlurParam.hardness < (exampleConsts.kHardness : Int) ∧
      exampleEraserParam.type = kTypeEraser ∧ exampleBlurParam.type = kTypeDeformer ∧
      ∀ l, cleanDriver.hasError l = false) ∧
    (∃ s2 g2 q, Task.writeSrc exampleConsts 0 (some 1) exampleMesh exampleEraserParam
        exampleReached.1 exampleReached.2 = .ok (s2, g2) ∧
      Task.onRequested cleanDriver exampleConsts exampleBuiltPool s2 g2 =
        .ok (g2 ++ requestCalls exampleConsts s2) ∧
      exampleBuiltPool.program exampleConsts 1 2 = .ok q ∧
      exampleBuiltPool.element 5 = .ok q ∧
      q.feedbackVaryings = ["outPosition"] ∧
      drawsOf Bound.empty (requestCalls exampleConsts s2) =
        [{ bound := { program := some (.variation 5)
                      texture := none
                      feedback0 := some { buffer := .outMesh, range := none }
                      feedback1 := none }
           first := 0
           count := 3 }] ∧
      ∀ c ∈ requestCalls exampleConsts s2, c.bindsFeedback .outWeight = false) ∧
    (∃ s2 g2 q, Task.writeSrc exampleConsts 0 (some 1) exampleMesh exampleBlurParam
        exampleReached.1 exampleReached.2 = .ok (s2, g2) ∧
      Task.onRequested cleanDriver exampleConsts exampleBuiltPool s2 g2 =
        .ok (g2 ++ requestCalls exampleConsts s2) ∧
      exampleBuiltPool.program exampleConsts 0 1 = .ok q ∧
      exampleBuiltPool.element 1 = .ok q ∧
      q.feedbackVaryings = ["outPosition", "outWeight"] ∧
      (drawsOf Bound.empty (requestCalls exampleConsts s2)).head? =
        some { bound := { program := some (.variation 1)
                          texture := none
                          feedback0 := some { buffer := .outMesh, range := none }
                          feedback1 := some { buffer := .outWeight, range := none } }
               first := 0
               count := 3 }) :=
  ⟨⟨fun _ => rfl, rfl, rfl, rfl, rfl, rfl, by decide, rfl, by decide, by decide, by decide,
      by decide, by decide, by decide, by decide, rfl, rfl, fun _ => rfl⟩,
    (feedback_bindings_by_type exampleEnv cleanDriver exampleConsts examplePool
      exampleBuiltPool "brush" "eraser" "blur" [] 0 (some 1) exampleMesh exampleEraserParam
      exampleReached.1 exampleReached.2 (fun _ => rfl) rfl rfl rfl rfl rfl (by decide) rfl
      (by decide) (by decide) (by decide) (by decide) (fun _ => rfl)).1 rfl,
    (feedback_bindings_by_type exampleEnv cleanDriver exampleConsts examplePool
      exampleBuiltPool "brush" "eraser" "blur" [] 0 (some 1) exampleMesh exampleBlurParam
      exampleReached.1 exampleReached.2 (fun _ => rfl) rfl rfl rfl rfl rfl (by decide) rfl
      (by decide) (by decide) (by decide) (by decide) (fun _ => rfl)).2 rfl⟩

/-- Witness of C7: the example state configured for blur, with three blocks of which the
second has no vertices, starting from no bindings. -/
theorem requestBlur_draws_per_block_witness :
    (exampleBlurState.1.mArrayedConnectionList.blocks.length ≤
        exampleBlurState.1.mSrcBlurPositions.length ∧
      ∀ blk ∈ exampleBlurState.1.mArrayedConnectionList.blocks,
        -2147483648 ≤ blk.vertexRange.min ∧ blk.vertexRange.min ≤ 2147483647 ∧
        -2147483648 ≤ blk.vertexRange.max ∧ blk.vertexRange.max ≤ 2147483647 ∧
        -2147483648 ≤ blk.vertexRange.max - blk.vertexRange.min ∧
        blk.vertexRange.max - blk.vertexRange.min + 1 ≤ 2147483647) ∧
    Task.requestBlur cleanDriver exampleConsts exampleBlurState.1 exampleBlurState.2 =
      .ok (exampleBlurState.2 ++ blurCalls exampleConsts exampleBlurState.1) ∧
    drawsOf Bound.empty (blurCalls exampleConsts exampleBlurState.1) =
      [ { bound := { program := some .blur, texture := some 0,
                     feedback0 := some { buffer := .outMesh, range := some (0, 24) },
                     feedback1 := none },
          first := 0, count := 2 },
        { bound := { program := some .blur, texture := some 2,
                     feedback0 := some { buffer := .outMesh, range := some (24, 24) },
                     feedback1 := none },
          first := 2, count := 2 } ] ∧
    (drawsOf Bound.empty (blurCalls exampleConsts exampleBlurState.1)).Pairwise (fun r1 r2 =>
      ∀ o1 z1 o2 z2, r1.outMeshRange = some (o1, z1) → r2.outMeshRange = some (o2, z2) →
        o1 + z1 ≤ o2 ∨ o2 + z2 ≤ o1) :=
  have h := requestBlur_draws_per_block cleanDriver exampleConsts exampleBlurState.1
    exampleBlurState.2 Bound.empty 4 (by decide) (by decide)
  ⟨⟨by decide, by decide⟩, h.1, h.2.2.2.1.1,
    (h.2.2.2.2 (by decide) (by decide)).1⟩

/-- Witness of C8: in the example environment `setup` returns with the whole plan
performed; in the example failing environment, where the link of a program with a single
varying fails, the first failing step is the link of `mProgram[3]`, the first eraser
program, step 20 of the plan: the trace ends there with the fatal link error. -/
theorem setup_completes_iff_all_succeed_witness :
    ((∀ x, exampleEnv.glError x = false) ∧ (∀ x, exampleFailEnv.glError x = false) ∧
      exampleConsts.kType = 2 ∧
      exampleConsts.kVariation = exampleConsts.kType * exampleConsts.kHardness ∧
      examplePool.mProgram.length = exampleConsts.kVariation) ∧
    (((∃ r2, (Resource.setup exampleEnv exampleConsts examplePool "brush" "eraser" "blur"
        []).result = .ok r2) ↔
      ∀ st ∈ exampleEnv.setupPlan exampleConsts "brush" "eraser" "blur",
        exampleEnv.fails st = false) ∧
    (∀ r2, (Resource.setup exampleEnv exampleConsts examplePool "brush" "eraser" "blur"
        []).result = .ok r2 →
      (Resource.setup exampleEnv exampleConsts examplePool "brush" "eraser" "blur" []).trace =
        [] ++ exampleEnv.setupPlan exampleConsts "brush" "eraser" "blur" ∧
      r2.blurProgram.linked = true ∧
      ∀ t h : Int, 0 ≤ t → t < (exampleConsts.kType : Int) → 0 ≤ h →
        h < (exampleConsts.kHardness : Int) →
        ∃ p, r2.program exampleConsts t h = .ok p ∧ p.linked = true)) ∧
    ((Resource.setup exampleFailEnv exampleConsts examplePool "brush" "eraser" "blur" []).trace =
        [] ++ (exampleFailEnv.setupPlan exampleConsts "brush" "eraser" "blur").take 20 ++
          [.link (.variation 3) (variationSource "eraser" 0) ["outPosition"]] ∧
      (Resource.setup exampleFailEnv exampleConsts examplePool "brush" "eraser" "blur" []).result =
        .error (.fatalError "OpenGL Error" "Failed to link shader.")) :=
  have h := setup_completes_iff_all_succeed exampleEnv exampleConsts examplePool "brush"
    "eraser" "blur" [] (fun _ => rfl) rfl rfl rfl
  have hf := (setup_completes_iff_all_succeed exampleFailEnv exampleConsts examplePool "brush"
    "eraser" "blur" [] (fun _ => rfl) rfl rfl rfl).2.2.1
    ((exampleFailEnv.setupPlan exampleConsts "brush" "eraser" "blur").take 20)
    (.link (.variation 3) (variationSource "eraser" 0) ["outPosition"])
    ((exampleFailEnv.setupPlan exampleConsts "brush" "eraser" "blur").drop 21)
    rfl (by decide) rfl
  ⟨⟨fun _ => rfl, fun _ => rfl, rfl, rfl, rfl⟩, ⟨h.2.1, h.2.2.2⟩, ⟨hf.1, hf.2.1⟩⟩

end ctrl.ffd
